import Mathlib

/-!
A shallow embedding of the demand-generation core of the traffic simulator:
the scenario instantiator, parking allocator and goal resolver of
`editor/src/plugins/sim/new_des_model/scenario.rs`, and the orchestrator
operations of `sim/src/sim.rs`.  Machine reals (distances, durations,
probabilities) are modelled as naturals (durations in seconds, lengths in
decimetres, probabilities in per-mille); the pseudo-random generator is
modelled as an abstract deterministic stream.  Collaborator code that is not
part of the two source files (abstutil, map_model, the new_des_model Sim, the
movement subsystems) is modelled from the specification and marked as such.
-/

namespace AB

/-- Lane classification, from map_model::LaneType. -/
inductive LaneType
  | Driving
  | Parking
  | Sidewalk
  | Biking
deriving DecidableEq

/-- A position on a lane: a lane id and a distance along it. -/
structure Position where
  lane : Nat
  dist : Nat
deriving DecidableEq

inductive VehicleType
  | Car
  | Bus
  | Bike
deriving DecidableEq

/-- A vehicle specification: type, length and optional speed cap. -/
structure VehicleSpec where
  vehicle_type : VehicleType
  length : Nat
  max_speed : Option Nat
deriving DecidableEq

/-- Modelled from the spec: vehicle length bound constants of new_des_model
(not in src/), in decimetres. -/
def MIN_CAR_LENGTH : Nat := 45

def MAX_CAR_LENGTH : Nat := 65

def MIN_BIKE_LENGTH : Nat := 17

def MAX_BIKE_LENGTH : Nat := 20

/-- Modelled from the spec: a seedable deterministic random stream
(XorShiftRng, not in src/).  One draw returns the current seed and advances
the state; all that the claims need is that the stream is a deterministic
function of the seed and that every draw advances it. -/
structure RngState where
  seed : Nat
deriving DecidableEq

/-- One draw from the stream. -/
def rngNext (r : RngState) : Nat × RngState := (r.seed, ⟨r.seed + 1⟩)

/-- Modelled from the spec: abstutil::fork_rng (not in src/) derives an
independent child stream from the parent by consuming exactly one parent
draw; the parent advances by one draw regardless of what the child later
consumes. -/
def fork_rng (r : RngState) : RngState × RngState :=
  let d := rngNext r
  (⟨d.1 * 2654435761 + 1⟩, d.2)

/-- rand::Rng::gen_range over naturals: one draw, uniform in [lo, hi). -/
def gen_range (lo hi : Nat) (r : RngState) : Nat × RngState :=
  let d := rngNext r
  (if lo < hi then lo + d.1 % (hi - lo) else lo, d.2)

/-- rand::Rng::gen_bool, with the probability in per-mille: one draw. -/
def gen_bool (permille : Nat) (r : RngState) : Bool × RngState :=
  let d := rngNext r
  (decide (d.1 % 1000 < permille), d.2)

/-- SliceRandom::choose: one draw, uniform index; none on an empty slice. -/
def chooseFrom {α : Type} (l : List α) (r : RngState) : Option α × RngState :=
  let d := rngNext r
  (l.get? (d.1 % l.length), d.2)

/-- Modelled from the spec: SliceRandom::shuffle with a forked stream is a
reproducible permutation determined by the child stream; modelled as a
seed-determined rotation. -/
def shuffleWith {α : Type} (l : List α) (r : RngState) : List α :=
  let k := r.seed % (l.length + 1)
  l.drop k ++ l.take k

/-- scenario.rs rand_dist: one gen_range draw. -/
def rand_dist (r : RngState) (low high : Nat) : Nat × RngState :=
  gen_range low high r

/-- scenario.rs rand_time: one gen_range draw. -/
def rand_time (r : RngState) (low high : Nat) : Nat × RngState :=
  gen_range low high r

/-- scenario.rs rand_car: a Car with a random length, no speed cap. -/
def rand_car (r : RngState) : VehicleSpec × RngState :=
  let d := rand_dist r MIN_CAR_LENGTH MAX_CAR_LENGTH
  (⟨VehicleType.Car, d.1, none⟩, d.2)

/-- scenario.rs rand_bike: vehicle_type Bus (as in the source), random
length, capped speed. -/
def rand_bike (r : RngState) : VehicleSpec × RngState :=
  let d := rand_dist r MIN_BIKE_LENGTH MAX_BIKE_LENGTH
  (⟨VehicleType.Bus, d.1, some 16⟩, d.2)

/-- One parking location: lane plus slot index. -/
structure ParkingSpot where
  lane : Nat
  idx : Nat
deriving DecidableEq

/-- A sidewalk anchor: either a building connection or a border endpoint. -/
inductive SidewalkSpot
  | bldg (b : Nat) (pos : Position)
  | borderSpot (i : Nat) (pos : Position)
deriving DecidableEq

/-- The sidewalk position of a spot. -/
def SidewalkSpot.sidewalk_pos : SidewalkSpot → Position
  | .bldg _ p => p
  | .borderSpot _ p => p

inductive DrivingGoal
  | ParkNear (b : Nat)
  | Border (i : Nat) (lane : Nat)
deriving DecidableEq

/-- new_des_model::TripSpec, modelled from the spec and its uses in
scenario.rs (the type itself is not in src/). -/
inductive TripSpec
  | UsingParkedCar (start : SidewalkSpot) (spot : ParkingSpot) (goal : DrivingGoal)
  | UsingBike (start : SidewalkSpot) (bike : VehicleSpec) (goal : DrivingGoal)
  | JustWalking (start : SidewalkSpot) (goal : SidewalkSpot)
  | UsingTransit (start : SidewalkSpot) (route stop1 stop2 : Nat) (goal : SidewalkSpot)
  | CarAppearing (pos : Position) (vehicle : VehicleSpec) (goal : DrivingGoal)
deriving DecidableEq

/-- Modelled from the spec: the non-fatal warnings reported through the
progress reporter (abstutil::Timer, not in src/), with the format arguments
kept as fields. -/
inductive Warning
  | noRoom (totalSpots buildingsLen newCarsSoFar b : Nat)
  | giveUp (b : Nat)
  | seededNote (newCars totalSpots : Nat)
  | noSidewalkAtBorder (i : Nat)
  | noDrivingLaneAtBorder (i : Nat)
  | laneTooShortForCars (i : Nat)
  | noBikeLaneAtBorder (i : Nat)
  | noDrivingGoalAtBorder (i : Nat)
  | noBikingGoalAtBorder (i : Nat)
  | noWalkingGoalAtBorder (i : Nat)
deriving DecidableEq

/-- The fatal aborts of instantiation: an undefined neighborhood name
(panic! in scenario.rs) or an unwrap of an empty building choice. -/
inductive Panic
  | neighborhoodUndefined (name : String)
  | emptyChoice
deriving DecidableEq

/-- A road and its lane children, from map_model::Road (modelled from the
spec; only the queries scenario.rs makes). -/
structure Road where
  id : Nat
  children_forwards : List (Nat × LaneType)
  children_backwards : List (Nat × LaneType)

/-- map_model::FullNeighborhoodInfo: the per-name building list and road
set (the road set is kept as a duplicate-free list). -/
structure FullNeighborhoodInfo where
  buildings : List Nat
  roads : List Nat
deriving DecidableEq

/-- Modelled from the spec: the read-only map/topology collaborator
(map_model, not in src/), as query functions. -/
structure Map where
  get_r : Nat → Road
  building_to_road : Nat → Nat
  bldgSidewalkPos : Nat → Position
  incomingLanes : Nat → LaneType → List Nat
  outgoingLanes : Nat → LaneType → List Nat
  get_next_roads : Nat → List Nat
  laneLength : Nat → Nat
  laneSlots : Nat → Nat
  parentSupportsBikes : Nat → Bool
  laneTypeOf : Nat → LaneType
  borderSidewalkPos : Nat → Option Position
  should_use_transit : Position → Position → Option (Nat × Nat × Nat)
  neighborhoodsList : List (String × FullNeighborhoodInfo)

/-- SidewalkSpot::building. -/
def buildingSpot (b : Nat) (m : Map) : SidewalkSpot :=
  .bldg b (m.bldgSidewalkPos b)

/-- SidewalkSpot::start_at_border: some iff the border has a sidewalk. -/
def start_at_border (i : Nat) (m : Map) : Option SidewalkSpot :=
  (m.borderSidewalkPos i).map (SidewalkSpot.borderSpot i)

/-- SidewalkSpot::end_at_border: some iff the border has a sidewalk. -/
def end_at_border (i : Nat) (m : Map) : Option SidewalkSpot :=
  (m.borderSidewalkPos i).map (SidewalkSpot.borderSpot i)

/-- A seeded vehicle: id plus specification. -/
structure Vehicle where
  id : Nat
  spec : VehicleSpec
deriving DecidableEq

/-- A vehicle bound to a spot with an optional owning building. -/
structure ParkedCar where
  vehicle : Vehicle
  spot : ParkingSpot
  owner : Option Nat
deriving DecidableEq

/-- Modelled from the spec: the new_des_model Sim orchestrator state that
scenario instantiation touches (not in src/): the vehicle id counter, the
parked cars, the queued trips and the realized trips. -/
structure Sim where
  car_id_counter : Nat
  parkedCars : List ParkedCar
  scheduledTrips : List (Nat × TripSpec)
  spawnedTrips : List (Nat × TripSpec)
deriving DecidableEq

/-- Modelled from the spec: the parked cars owned by a building. -/
def Sim.get_parked_cars_by_owner (s : Sim) (b : Nat) : List ParkedCar :=
  s.parkedCars.filter (fun p => decide (p.owner = some b))

/-- Modelled from the spec: the free spots of a parking lane (slots not
held by any parked car). -/
def Sim.get_free_spots (s : Sim) (lane : Nat) (m : Map) : List ParkingSpot :=
  (List.range (m.laneSlots lane)).filterMap (fun i =>
    if s.parkedCars.any (fun p => decide (p.spot = ⟨lane, i⟩)) then none
    else some ⟨lane, i⟩)

/-- Modelled from the spec: bind a fresh vehicle to a spot and owner; the
id counter increases monotonically and ids are never reused. -/
def Sim.seed_parked_car (s : Sim) (spec : VehicleSpec) (spot : ParkingSpot)
    (owner : Option Nat) : Sim :=
  { s with
    car_id_counter := s.car_id_counter + 1
    parkedCars := s.parkedCars ++ [⟨⟨s.car_id_counter, spec⟩, spot, owner⟩] }

/-- Modelled from the spec: schedule_trip enqueues without realizing. -/
def Sim.schedule_trip (s : Sim) (t : Nat) (spec : TripSpec) : Sim :=
  { s with scheduledTrips := s.scheduledTrips ++ [(t, spec)] }

/-- Stable insertion of a trip by spawn time (earlier times first, equal
times keep insertion order). -/
def insertTrip (x : Nat × TripSpec) : List (Nat × TripSpec) → List (Nat × TripSpec)
  | [] => [x]
  | y :: ys => if y.1 < x.1 then y :: insertTrip x ys else x :: y :: ys

/-- Stable sort of the trip queue by spawn time. -/
def sortTrips : List (Nat × TripSpec) → List (Nat × TripSpec)
  | [] => []
  | x :: xs => insertTrip x (sortTrips xs)

/-- Modelled from the spec: spawn_all_trips realizes every queued trip in a
stable order (by spawn time, then insertion order), as a single batch. -/
def Sim.spawn_all_trips (s : Sim) : Sim :=
  { s with
    scheduledTrips := []
    spawnedTrips := s.spawnedTrips ++ sortTrips s.scheduledTrips }

/-- Lookup of a neighborhood name in the loaded neighborhood index
(HashMap::contains_key / index access in scenario.rs). -/
def lookupNb : List (String × FullNeighborhoodInfo) → String → Option FullNeighborhoodInfo
  | [], _ => none
  | kv :: rest, n => if kv.1 = n then some kv.2 else lookupNb rest n

/-- abstutil::WeightedUsizeChoice, modelled from the spec: a weighted
distribution over counts; sampling consumes one base-stream draw. -/
structure WeightedUsizeChoice where
  vals : List Nat
deriving DecidableEq

/-- Modelled from the spec: sample the per-building vehicle count. -/
def WeightedUsizeChoice.sample (w : WeightedUsizeChoice) (r : RngState) : Nat × RngState :=
  let d := rngNext r
  ((w.vals.get? (d.1 % w.vals.length)).getD 0, d.2)

/-- scenario.rs OriginDestination. -/
inductive OriginDestination
  | Neighborhood (name : String)
  | Border (i : Nat)
deriving DecidableEq

/-- OriginDestination::pick_driving_goal.  A random building for a named
neighborhood (aborting on an unknown name or an empty building list, as the
source's index access and unwrap do); at a border, the first incoming
driving lane, or unresolved with a warning when there is none. -/
def OriginDestination.pick_driving_goal (od : OriginDestination) (m : Map)
    (nbhds : List (String × FullNeighborhoodInfo)) (r : RngState)
    (ws : List Warning) :
    Except Panic (Option DrivingGoal × RngState × List Warning) :=
  match od with
  | .Neighborhood n =>
    match lookupNb nbhds n with
    | none => .error (.neighborhoodUndefined n)
    | some info =>
      let c := chooseFrom info.buildings r
      match c.1 with
      | none => .error .emptyChoice
      | some b => .ok (some (.ParkNear b), c.2, ws)
  | .Border i =>
    match m.incomingLanes i .Driving with
    | [] => .ok (none, r, ws ++ [.noDrivingGoalAtBorder i])
    | l :: _ => .ok (some (.Border i l), r, ws)

/-- OriginDestination::pick_biking_goal: like driving, but incoming biking
lanes are considered before incoming driving lanes. -/
def OriginDestination.pick_biking_goal (od : OriginDestination) (m : Map)
    (nbhds : List (String × FullNeighborhoodInfo)) (r : RngState)
    (ws : List Warning) :
    Except Panic (Option DrivingGoal × RngState × List Warning) :=
  match od with
  | .Neighborhood n =>
    match lookupNb nbhds n with
    | none => .error (.neighborhoodUndefined n)
    | some info =>
      let c := chooseFrom info.buildings r
      match c.1 with
      | none => .error .emptyChoice
      | some b => .ok (some (.ParkNear b), c.2, ws)
  | .Border i =>
    match m.incomingLanes i .Biking ++ m.incomingLanes i .Driving with
    | [] => .ok (none, r, ws ++ [.noBikingGoalAtBorder i])
    | l :: _ => .ok (some (.Border i l), r, ws)

/-- OriginDestination::pick_walking_goal: a random building spot for a
named neighborhood; at a border, the sidewalk endpoint, or unresolved with
a warning when the border has no sidewalk. -/
def OriginDestination.pick_walking_goal (od : OriginDestination) (m : Map)
    (nbhds : List (String × FullNeighborhoodInfo)) (r : RngState)
    (ws : List Warning) :
    Except Panic (Option SidewalkSpot × RngState × List Warning) :=
  match od with
  | .Neighborhood n =>
    match lookupNb nbhds n with
    | none => .error (.neighborhoodUndefined n)
    | some info =>
      let c := chooseFrom info.buildings r
      match c.1 with
      | none => .error .emptyChoice
      | some b => .ok (some (buildingSpot b m), c.2, ws)
  | .Border i =>
    match end_at_border i m with
    | none => .ok (none, r, ws ++ [.noWalkingGoalAtBorder i])
    | some g => .ok (some g, r, ws)

/-- The per-road open-spot stacks of one SeedParkedCars pass, keyed by road
id (HashMap<RoadID, Vec<ParkingSpot>> in the source). -/
abbrev SpotsMap := List (Nat × List ParkingSpot)

/-- Lookup of a road's spot stack. -/
def lookupSpots : SpotsMap → Nat → Option (List ParkingSpot)
  | [], _ => none
  | kv :: rest, r => if kv.1 = r then some kv.2 else lookupSpots rest r

/-- Replace a road's spot stack (first binding). -/
def updateSpots : SpotsMap → Nat → List ParkingSpot → SpotsMap
  | [], _, _ => []
  | kv :: rest, r, l => if kv.1 = r then (kv.1, l) :: rest else kv :: updateSpots rest r l

/-- Total number of open spots across all stacks. -/
def totalOpenSpots (sm : SpotsMap) : Nat :=
  (sm.map (fun kv => kv.2.length)).sum

/-- Vec::pop: remove and return the last element. -/
def vecPop {α : Type} : List α → Option (α × List α)
  | [] => none
  | x :: xs =>
    match vecPop xs with
    | none => some (x, [])
    | some yr => some (yr.1, x :: yr.2)

/-- The free spots collected from a road's parking-typed lanes, forward
children then backward children (seed_parked_cars setup). -/
def roadFreeSpots (sim : Sim) (m : Map) (r : Road) : List ParkingSpot :=
  ((r.children_forwards ++ r.children_backwards).filter
      (fun c => decide (c.2 = LaneType.Parking))).flatMap
    (fun c => sim.get_free_spots c.1 m)

/-- The setup loop of seed_parked_cars: for every neighborhood road,
collect its free spots, shuffle them with a forked stream, and record them
in the stack map; also counts the total free spots. -/
def buildOpenSpots (sim : Sim) (m : Map) : List Nat → RngState → SpotsMap × Nat × RngState
  | [], r => ([], 0, r)
  | id :: rest, r =>
    (((m.get_r id).id, shuffleWith (roadFreeSpots sim m (m.get_r id)) (fork_rng r).1) ::
        (buildOpenSpots sim m rest (fork_rng r).2).1,
      (roadFreeSpots sim m (m.get_r id)).length +
        (buildOpenSpots sim m rest (fork_rng r).2).2.1,
      (buildOpenSpots sim m rest (fork_rng r).2).2.2)

/-- The BFS loop of find_spot_near_building, with explicit fuel (the loop
visits each road at most once, so the fuel never runs out at the chosen
bound).  Returns the found spot, the updated stacks, and whether the
giving-up warning fired. -/
def findSpotBFS (m : Map) (nbr : List Nat) :
    Nat → List Nat → List Nat → SpotsMap → Option ParkingSpot × SpotsMap × Bool
  | 0, _, _, sm => (none, sm, false)
  | _ + 1, [], _, sm => (none, sm, true)
  | fuel + 1, r :: queue, visited, sm =>
    match vecPop ((lookupSpots sm r).getD []) with
    | some sr => (some sr.1, updateSpots sm r sr.2, false)
    | none =>
      let nexts := (m.get_next_roads r).filter
        (fun n => decide (¬ n ∈ visited) && decide (n ∈ nbr))
      findSpotBFS m nbr fuel (queue ++ nexts) (visited ++ nexts) sm

/-- scenario.rs find_spot_near_building: breadth-first search from the
building's own road, restricted to the neighborhood's road set, popping a
spot from the first visited road whose stack is non-empty. -/
def find_spot_near_building (b : Nat) (sm : SpotsMap) (nbr : List Nat) (m : Map) :
    Option ParkingSpot × SpotsMap × Bool :=
  let s := m.building_to_road b
  findSpotBFS m nbr (nbr.length + 2) [s] [s] sm

/-- The per-vehicle inner loop of seed_parked_cars for one building: fork a
child stream, search for a spot; on success seed a fresh vehicle (spec
drawn from the child) bound to the spot and building, else report the
no-room warning.  Returns sim, stacks, base stream, placed count, warnings. -/
def seedVehicles (m : Map) (nbr : List Nat) (b : Nat) (totalSpots bldgsLen : Nat) :
    Nat → Sim → SpotsMap → RngState → Nat → List Warning →
    Sim × SpotsMap × RngState × Nat × List Warning
  | 0, sim, sm, r, newCars, ws => (sim, sm, r, newCars, ws)
  | n + 1, sim, sm, r, newCars, ws =>
    match find_spot_near_building b sm nbr m with
    | (some spot, sm2, _) =>
      seedVehicles m nbr b totalSpots bldgsLen n
        (sim.seed_parked_car (rand_car (fork_rng r).1).1 spot (some b)) sm2
        (fork_rng r).2 (newCars + 1) ws
    | (none, sm2, warned) =>
      seedVehicles m nbr b totalSpots bldgsLen n sim sm2 (fork_rng r).2 newCars
        (ws ++ (if warned then [Warning.giveUp b] else []) ++
          [Warning.noRoom totalSpots bldgsLen newCars b])

/-- The per-building loop of seed_parked_cars: sample a requested count
from the weighted distribution, then run the per-vehicle loop. -/
def seedBuildings (m : Map) (nbr : List Nat) (wuc : WeightedUsizeChoice)
    (totalSpots bldgsLen : Nat) :
    List Nat → Sim → SpotsMap → RngState → Nat → List Warning →
    Sim × SpotsMap × RngState × Nat × List Warning
  | [], sim, sm, r, newCars, ws => (sim, sm, r, newCars, ws)
  | b :: rest, sim, sm, r, newCars, ws =>
    seedBuildings m nbr wuc totalSpots bldgsLen rest
      (seedVehicles m nbr b totalSpots bldgsLen (wuc.sample r).1 sim sm (wuc.sample r).2
        newCars ws).1
      (seedVehicles m nbr b totalSpots bldgsLen (wuc.sample r).1 sim sm (wuc.sample r).2
        newCars ws).2.1
      (seedVehicles m nbr b totalSpots bldgsLen (wuc.sample r).1 sim sm (wuc.sample r).2
        newCars ws).2.2.1
      (seedVehicles m nbr b totalSpots bldgsLen (wuc.sample r).1 sim sm (wuc.sample r).2
        newCars ws).2.2.2.1
      (seedVehicles m nbr b totalSpots bldgsLen (wuc.sample r).1 sim sm (wuc.sample r).2
        newCars ws).2.2.2.2

/-- The orchestrator-visible state threaded through instantiation: the Sim,
the base random stream and the reported warnings. -/
structure World where
  sim : Sim
  rng : RngState
  warnings : List Warning
deriving DecidableEq

/-- scenario.rs seed_parked_cars: build the per-road stacks (shuffled with
forked streams), run the per-building loop, and report the final note. -/
def seed_parked_cars (w : World) (wuc : WeightedUsizeChoice)
    (owner_buildings : List Nat) (nbr_roads : List Nat) (m : Map) : World :=
  ⟨(seedBuildings m nbr_roads wuc (buildOpenSpots w.sim m nbr_roads w.rng).2.1
      owner_buildings.length owner_buildings w.sim (buildOpenSpots w.sim m nbr_roads w.rng).1
      (buildOpenSpots w.sim m nbr_roads w.rng).2.2 0 w.warnings).1,
    (seedBuildings m nbr_roads wuc (buildOpenSpots w.sim m nbr_roads w.rng).2.1
      owner_buildings.length owner_buildings w.sim (buildOpenSpots w.sim m nbr_roads w.rng).1
      (buildOpenSpots w.sim m nbr_roads w.rng).2.2 0 w.warnings).2.2.1,
    (seedBuildings m nbr_roads wuc (buildOpenSpots w.sim m nbr_roads w.rng).2.1
      owner_buildings.length owner_buildings w.sim (buildOpenSpots w.sim m nbr_roads w.rng).1
      (buildOpenSpots w.sim m nbr_roads w.rng).2.2 0 w.warnings).2.2.2.2 ++
      [.seededNote (seedBuildings m nbr_roads wuc (buildOpenSpots w.sim m nbr_roads w.rng).2.1
        owner_buildings.length owner_buildings w.sim (buildOpenSpots w.sim m nbr_roads w.rng).1
        (buildOpenSpots w.sim m nbr_roads w.rng).2.2 0 w.warnings).2.2.2.1
        (buildOpenSpots w.sim m nbr_roads w.rng).2.1]⟩

/-- The state threaded through the SpawnOverTime phase: the world plus the
reserved-vehicle set of the pass (HashSet<CarID> in the source, modelled as
a list with the newest reservation first). -/
structure SpawnState where
  sim : Sim
  rng : RngState
  warnings : List Warning
  reserved : List Nat
deriving DecidableEq

/-- The world part of a spawn state. -/
def SpawnState.world (st : SpawnState) : World :=
  ⟨st.sim, st.rng, st.warnings⟩

/-- One agent of a SpawnOverTime batch (the body of the per-agent loop in
Scenario::instantiate): sample a spawn time and an origin building, then
the strict ordered mode choice — an owned unreserved parked car first, else
a bike roll, else walking with a transit roll. -/
def spawnAgent (goalOd : OriginDestination) (startT stopT pctBike pctTransit : Nat)
    (m : Map) (nbhds : List (String × FullNeighborhoodInfo))
    (info : FullNeighborhoodInfo) (st : SpawnState) :
    Except (Panic × World) SpawnState :=
  let t := rand_time st.rng startT stopT
  let c := chooseFrom info.buildings t.2
  match c.1 with
  | none => .error (.emptyChoice, st.world)
  | some from_bldg =>
    match (st.sim.get_parked_cars_by_owner from_bldg).find?
        (fun p => decide (¬ p.vehicle.id ∈ st.reserved)) with
    | some parked_car =>
      match goalOd.pick_driving_goal m nbhds c.2 st.warnings with
      | .error e => .error (e, ⟨st.sim, c.2, st.warnings⟩)
      | .ok (goal?, r3, ws3) =>
        match goal? with
        | some goal =>
          .ok ⟨st.sim.schedule_trip t.1
                (.UsingParkedCar (buildingSpot from_bldg m) parked_car.spot goal),
              r3, ws3, parked_car.vehicle.id :: st.reserved⟩
        | none => .ok ⟨st.sim, r3, ws3, st.reserved⟩
    | none =>
      let g := gen_bool pctBike c.2
      if g.1 then
        match goalOd.pick_biking_goal m nbhds g.2 st.warnings with
        | .error e => .error (e, ⟨st.sim, g.2, st.warnings⟩)
        | .ok (goal?, r4, ws4) =>
          match goal? with
          | some goal =>
            let skip :=
              match goal with
              | .ParkNear to_bldg =>
                decide ((m.bldgSidewalkPos to_bldg).lane = (m.bldgSidewalkPos from_bldg).lane)
              | .Border _ _ => false
            if skip then .ok ⟨st.sim, r4, ws4, st.reserved⟩
            else
              let bk := rand_bike r4
              .ok ⟨st.sim.schedule_trip t.1
                    (.UsingBike (buildingSpot from_bldg m) bk.1 goal),
                  bk.2, ws4, st.reserved⟩
          | none => .ok ⟨st.sim, r4, ws4, st.reserved⟩
      else
        match goalOd.pick_walking_goal m nbhds g.2 st.warnings with
        | .error e => .error (e, ⟨st.sim, g.2, st.warnings⟩)
        | .ok (goal?, r4, ws4) =>
          match goal? with
          | none => .ok ⟨st.sim, r4, ws4, st.reserved⟩
          | some goal =>
            let start_spot := buildingSpot from_bldg m
            let u := gen_bool pctTransit r4
            if u.1 then
              match m.should_use_transit start_spot.sidewalk_pos goal.sidewalk_pos with
              | some str =>
                .ok ⟨st.sim.schedule_trip t.1
                      (.UsingTransit start_spot str.2.2 str.1 str.2.1 goal),
                    u.2, ws4, st.reserved⟩
              | none =>
                .ok ⟨st.sim.schedule_trip t.1 (.JustWalking start_spot goal),
                    u.2, ws4, st.reserved⟩
            else
              .ok ⟨st.sim.schedule_trip t.1 (.JustWalking start_spot goal),
                  u.2, ws4, st.reserved⟩

/-- scenario.rs SpawnOverTime. -/
structure SpawnOverTime where
  num_agents : Nat
  start_time : Nat
  stop_time : Nat
  start_from_neighborhood : String
  goal : OriginDestination
  percent_biking : Nat
  percent_use_transit : Nat

/-- The num_agents iterations of one SpawnOverTime batch. -/
def spawnAgents (s : SpawnOverTime) (m : Map)
    (nbhds : List (String × FullNeighborhoodInfo)) (info : FullNeighborhoodInfo) :
    Nat → SpawnState → Except (Panic × World) SpawnState
  | 0, st => .ok st
  | n + 1, st =>
    match spawnAgent s.goal s.start_time s.stop_time s.percent_biking
        s.percent_use_transit m nbhds info st with
    | .error e => .error e
    | .ok st2 => spawnAgents s m nbhds info n st2

/-- One SpawnOverTime batch: the fatal check of the source neighborhood,
then the per-agent loop. -/
def spawnBatch (s : SpawnOverTime) (m : Map)
    (nbhds : List (String × FullNeighborhoodInfo)) (st : SpawnState) :
    Except (Panic × World) SpawnState :=
  match lookupNb nbhds s.start_from_neighborhood with
  | none => .error (.neighborhoodUndefined s.start_from_neighborhood, st.world)
  | some info => spawnAgents s m nbhds info s.num_agents st

/-- The SpawnOverTime phase of Scenario::instantiate. -/
def spawnPhase (m : Map) (nbhds : List (String × FullNeighborhoodInfo)) :
    List SpawnOverTime → SpawnState → Except (Panic × World) SpawnState
  | [], st => .ok st
  | s :: rest, st =>
    match spawnBatch s m nbhds st with
    | .error e => .error e
    | .ok st2 => spawnPhase m nbhds rest st2

/-- scenario.rs BorderSpawnOverTime. -/
structure BorderSpawnOverTime where
  num_peds : Nat
  num_cars : Nat
  num_bikes : Nat
  start_time : Nat
  stop_time : Nat
  start_from_border : Nat
  goal : OriginDestination
  percent_use_transit : Nat

/-- One pedestrian of a BorderSpawnOverTime batch. -/
def borderPed (s : BorderSpawnOverTime) (m : Map)
    (nbhds : List (String × FullNeighborhoodInfo)) (startSpot : SidewalkSpot)
    (w : World) : Except (Panic × World) World :=
  let t := rand_time w.rng s.start_time s.stop_time
  match s.goal.pick_walking_goal m nbhds t.2 w.warnings with
  | .error e => .error (e, ⟨w.sim, t.2, w.warnings⟩)
  | .ok (goal?, r2, ws2) =>
    match goal? with
    | none => .ok ⟨w.sim, r2, ws2⟩
    | some goal =>
      let u := gen_bool s.percent_use_transit r2
      if u.1 then
        match m.should_use_transit startSpot.sidewalk_pos goal.sidewalk_pos with
        | some str =>
          .ok ⟨w.sim.schedule_trip t.1
                (.UsingTransit startSpot str.2.2 str.1 str.2.1 goal), u.2, ws2⟩
        | none =>
          .ok ⟨w.sim.schedule_trip t.1 (.JustWalking startSpot goal), u.2, ws2⟩
      else
        .ok ⟨w.sim.schedule_trip t.1 (.JustWalking startSpot goal), u.2, ws2⟩

/-- One car of a BorderSpawnOverTime batch, appearing on the first outgoing
driving lane. -/
def borderCar (s : BorderSpawnOverTime) (m : Map)
    (nbhds : List (String × FullNeighborhoodInfo)) (lane0 : Nat)
    (w : World) : Except (Panic × World) World :=
  let t := rand_time w.rng s.start_time s.stop_time
  match s.goal.pick_driving_goal m nbhds t.2 w.warnings with
  | .error e => .error (e, ⟨w.sim, t.2, w.warnings⟩)
  | .ok (goal?, r2, ws2) =>
    match goal? with
    | none => .ok ⟨w.sim, r2, ws2⟩
    | some goal =>
      let car := rand_car r2
      .ok ⟨w.sim.schedule_trip t.1 (.CarAppearing ⟨lane0, 0⟩ car.1 goal), car.2, ws2⟩

/-- One bike of a BorderSpawnOverTime batch, appearing one bike-length down
the first usable biking lane. -/
def borderBike (s : BorderSpawnOverTime) (m : Map)
    (nbhds : List (String × FullNeighborhoodInfo)) (lane0 : Nat)
    (w : World) : Except (Panic × World) World :=
  let t := rand_time w.rng s.start_time s.stop_time
  match s.goal.pick_biking_goal m nbhds t.2 w.warnings with
  | .error e => .error (e, ⟨w.sim, t.2, w.warnings⟩)
  | .ok (goal?, r2, ws2) =>
    match goal? with
    | none => .ok ⟨w.sim, r2, ws2⟩
    | some goal =>
      let bk := rand_bike r2
      .ok ⟨w.sim.schedule_trip t.1 (.CarAppearing ⟨lane0, bk.1.length⟩ bk.1 goal), bk.2, ws2⟩

/-- Iterate a fallible world transformer n times. -/
def iterE (f : World → Except (Panic × World) World) :
    Nat → World → Except (Panic × World) World
  | 0, w => .ok w
  | n + 1, w =>
    match f w with
    | .error e => .error e
    | .ok w2 => iterE f n w2

/-- The pedestrian submode of one BorderSpawnOverTime batch: spawn the peds
if the border has a sidewalk, else one warning when any were requested. -/
def borderBatchPeds (s : BorderSpawnOverTime) (m : Map)
    (nbhds : List (String × FullNeighborhoodInfo)) (w : World) :
    Except (Panic × World) World :=
  match start_at_border s.start_from_border m with
  | some startSpot => iterE (borderPed s m nbhds startSpot) s.num_peds w
  | none =>
    if s.num_peds > 0 then
      .ok ⟨w.sim, w.rng, w.warnings ++ [.noSidewalkAtBorder s.start_from_border]⟩
    else .ok w

/-- The car submode: requires an outgoing driving lane, and skips the whole
batch with a warning when the first one is shorter than the longest car. -/
def borderBatchCars (s : BorderSpawnOverTime) (m : Map)
    (nbhds : List (String × FullNeighborhoodInfo)) (w : World) :
    Except (Panic × World) World :=
  match m.outgoingLanes s.start_from_border .Driving with
  | [] =>
    if s.num_cars > 0 then
      .ok ⟨w.sim, w.rng, w.warnings ++ [.noDrivingLaneAtBorder s.start_from_border]⟩
    else .ok w
  | l0 :: _ =>
    if m.laneLength l0 < MAX_CAR_LENGTH then
      .ok ⟨w.sim, w.rng, w.warnings ++ [.laneTooShortForCars s.start_from_border]⟩
    else iterE (borderCar s m nbhds l0) s.num_cars w

/-- The bike submode: outgoing biking lanes, plus outgoing driving lanes
whose parent road supports bikes. -/
def borderBatchBikes (s : BorderSpawnOverTime) (m : Map)
    (nbhds : List (String × FullNeighborhoodInfo)) (w : World) :
    Except (Panic × World) World :=
  let lanes := m.outgoingLanes s.start_from_border .Biking ++
    (m.outgoingLanes s.start_from_border .Driving).filter m.parentSupportsBikes
  match lanes with
  | [] =>
    if s.num_bikes > 0 then
      .ok ⟨w.sim, w.rng, w.warnings ++ [.noBikeLaneAtBorder s.start_from_border]⟩
    else .ok w
  | l0 :: _ => iterE (borderBike s m nbhds l0) s.num_bikes w

/-- One BorderSpawnOverTime batch: peds, then cars, then bikes. -/
def borderBatch (s : BorderSpawnOverTime) (m : Map)
    (nbhds : List (String × FullNeighborhoodInfo)) (w : World) :
    Except (Panic × World) World :=
  match borderBatchPeds s m nbhds w with
  | .error e => .error e
  | .ok w1 =>
    match borderBatchCars s m nbhds w1 with
    | .error e => .error e
    | .ok w2 => borderBatchBikes s m nbhds w2

/-- The BorderSpawnOverTime phase of Scenario::instantiate. -/
def borderPhase (m : Map) (nbhds : List (String × FullNeighborhoodInfo)) :
    List BorderSpawnOverTime → World → Except (Panic × World) World
  | [], w => .ok w
  | s :: rest, w =>
    match borderBatch s m nbhds w with
    | .error e => .error e
    | .ok w2 => borderPhase m nbhds rest w2

/-- scenario.rs SeedParkedCars. -/
structure SeedParkedCars where
  neighborhood : String
  cars_per_building : WeightedUsizeChoice

/-- The SeedParkedCars phase of Scenario::instantiate: each request first
checks its neighborhood name fatally, then runs the parking allocator. -/
def seedPhase (m : Map) (nbhds : List (String × FullNeighborhoodInfo)) :
    List SeedParkedCars → World → Except (Panic × World) World
  | [], w => .ok w
  | s :: rest, w =>
    match lookupNb nbhds s.neighborhood with
    | none => .error (.neighborhoodUndefined s.neighborhood, w)
    | some info =>
      seedPhase m nbhds rest (seed_parked_cars w s.cars_per_building info.buildings info.roads m)

/-- scenario.rs Scenario. -/
structure Scenario where
  scenario_name : String
  map_name : String
  seed_parked_cars : List SeedParkedCars
  spawn_over_time : List SpawnOverTime
  border_spawn_over_time : List BorderSpawnOverTime

/-- Scenario::instantiate: load the neighborhood index, run the three
phases in order with a fresh empty reserved set for the spawn phase, then
realize all queued trips as one batch.  A fatal configuration error returns
the world as it stood at the abort. -/
def Scenario.instantiate (scn : Scenario) (m : Map) (w : World) :
    Except (Panic × World) World :=
  let nbhds := m.neighborhoodsList
  match seedPhase m nbhds scn.seed_parked_cars w with
  | .error e => .error e
  | .ok w1 =>
    match spawnPhase m nbhds scn.spawn_over_time ⟨w1.sim, w1.rng, w1.warnings, []⟩ with
    | .error e => .error e
    | .ok st =>
      match borderPhase m nbhds scn.border_spawn_over_time st.world with
      | .error e => .error e
      | .ok w3 => .ok ⟨w3.sim.spawn_all_trips, w3.rng, w3.warnings⟩

/-- An active driving record of sim/src/sim.rs (driving::Car, modelled from
the spec: only the waiting_for field that get_car_state projects, and the
debug flag). -/
structure DrivingCar where
  waiting_for : Option Nat
  debug : Bool
deriving DecidableEq

/-- Modelled from the spec: driving::DrivingSimState (not in src/): the
tracked driving lanes and turns, and the active car records keyed by
CarID.  The lane/turn edit operations are safe set updates (no-ops when
the element is absent / already present). -/
structure DrivingSimState where
  lanes : List Nat
  turns : List Nat
  cars : List (Nat × DrivingCar)
deriving DecidableEq

/-- Modelled from the spec: parking::ParkingSimState as seen by the edit
entry points: the tracked parking lanes. -/
structure ParkingSimState where
  lanes : List Nat
deriving DecidableEq

/-- Modelled from the spec: walking::WalkingSimState as seen by the edit
entry points: the tracked sidewalks and sidewalk turns. -/
structure WalkingSimState where
  lanes : List Nat
  turns : List Nat
deriving DecidableEq

/-- Modelled from the spec: remove a tracked lane; a no-op when it was not
tracked. -/
def DrivingSimState.edit_remove_lane (d : DrivingSimState) (id : Nat) : DrivingSimState :=
  { d with lanes := d.lanes.filter (fun l => decide (¬ l = id)) }

/-- Modelled from the spec: track a lane; a no-op when already tracked. -/
def DrivingSimState.edit_add_lane (d : DrivingSimState) (id : Nat) : DrivingSimState :=
  { d with lanes := if id ∈ d.lanes then d.lanes else d.lanes ++ [id] }

/-- Modelled from the spec: remove a tracked turn; safe when untracked. -/
def DrivingSimState.edit_remove_turn (d : DrivingSimState) (id : Nat) : DrivingSimState :=
  { d with turns := d.turns.filter (fun t => decide (¬ t = id)) }

/-- Modelled from the spec: track a turn; safe when already tracked. -/
def DrivingSimState.edit_add_turn (d : DrivingSimState) (id : Nat) : DrivingSimState :=
  { d with turns := if id ∈ d.turns then d.turns else d.turns ++ [id] }

/-- Modelled from the spec: remove a tracked parking lane; safe when
untracked. -/
def ParkingSimState.edit_remove_lane (p : ParkingSimState) (id : Nat) : ParkingSimState :=
  { p with lanes := p.lanes.filter (fun l => decide (¬ l = id)) }

/-- Modelled from the spec: track a parking lane; safe when tracked. -/
def ParkingSimState.edit_add_lane (p : ParkingSimState) (id : Nat) : ParkingSimState :=
  { p with lanes := if id ∈ p.lanes then p.lanes else p.lanes ++ [id] }

/-- Modelled from the spec: remove a tracked sidewalk; safe when
untracked. -/
def WalkingSimState.edit_remove_lane (wk : WalkingSimState) (id : Nat) : WalkingSimState :=
  { wk with lanes := wk.lanes.filter (fun l => decide (¬ l = id)) }

/-- Modelled from the spec: track a sidewalk; safe when tracked. -/
def WalkingSimState.edit_add_lane (wk : WalkingSimState) (id : Nat) : WalkingSimState :=
  { wk with lanes := if id ∈ wk.lanes then wk.lanes else wk.lanes ++ [id] }

/-- Modelled from the spec: remove a tracked sidewalk turn; safe when
untracked. -/
def WalkingSimState.edit_remove_turn (wk : WalkingSimState) (id : Nat) : WalkingSimState :=
  { wk with turns := wk.turns.filter (fun t => decide (¬ t = id)) }

/-- Modelled from the spec: track a sidewalk turn; safe when tracked. -/
def WalkingSimState.edit_add_turn (wk : WalkingSimState) (id : Nat) : WalkingSimState :=
  { wk with turns := if id ∈ wk.turns then wk.turns else wk.turns ++ [id] }

/-- map_model::Turn as the edit entry points see it. -/
structure Turn where
  id : Nat
  between_sidewalks : Bool
deriving DecidableEq

/-- sim/src/sim.rs Sim: random stream, simulated time, the vehicle id
counter, the optional debugged car, and the three movement subsystems. -/
structure SimRs where
  rng : RngState
  time : Nat
  car_id_counter : Nat
  debug : Option Nat
  driving_state : DrivingSimState
  parking_state : ParkingSimState
  walking_state : WalkingSimState
deriving DecidableEq

/-- sim.rs Sim::edit_lane_type: route the removal by the old lane type and
the addition by the lane's current type in the map; Biking routes
nowhere. -/
def SimRs.edit_lane_type (s : SimRs) (id : Nat) (old_type : LaneType) (m : Map) : SimRs :=
  let s1 :=
    match old_type with
    | .Driving => { s with driving_state := s.driving_state.edit_remove_lane id }
    | .Parking => { s with parking_state := s.parking_state.edit_remove_lane id }
    | .Sidewalk => { s with walking_state := s.walking_state.edit_remove_lane id }
    | .Biking => s
  match m.laneTypeOf id with
  | .Driving => { s1 with driving_state := s1.driving_state.edit_add_lane id }
  | .Parking => { s1 with parking_state := s1.parking_state.edit_add_lane id }
  | .Sidewalk => { s1 with walking_state := s1.walking_state.edit_add_lane id }
  | .Biking => s1

/-- sim.rs Sim::edit_remove_turn: walking for sidewalk turns, driving
otherwise. -/
def SimRs.edit_remove_turn (s : SimRs) (t : Turn) : SimRs :=
  if t.between_sidewalks then
    { s with walking_state := s.walking_state.edit_remove_turn t.id }
  else
    { s with driving_state := s.driving_state.edit_remove_turn t.id }

/-- sim.rs Sim::edit_add_turn: walking for sidewalk turns, driving
otherwise. -/
def SimRs.edit_add_turn (s : SimRs) (t : Turn) : SimRs :=
  if t.between_sidewalks then
    { s with walking_state := s.walking_state.edit_add_turn t.id }
  else
    { s with driving_state := s.driving_state.edit_add_turn t.id }

/-- sim.rs CarState. -/
inductive CarState
  | Moving
  | Stuck
  | Parked
deriving DecidableEq

/-- Lookup of an active driving record by CarID (BTreeMap::get). -/
def lookupCar : List (Nat × DrivingCar) → Nat → Option DrivingCar
  | [], _ => none
  | kv :: rest, c => if kv.1 = c then some kv.2 else lookupCar rest c

/-- sim.rs Sim::get_car_state: Moving for an active unblocked record,
Stuck for an active blocked one, Parked when no record exists. -/
def SimRs.get_car_state (s : SimRs) (c : Nat) : CarState :=
  match lookupCar s.driving_state.cars c with
  | some driving => if driving.waiting_for.isNone then .Moving else .Stuck
  | none => .Parked

/-! ### Observables used by the theorems -/

/-- The parking spot a trip reserves, if it drives a parked vehicle. -/
def tripSpot : TripSpec → Option ParkingSpot
  | .UsingParkedCar _ spot _ => some spot
  | _ => none

/-- The spots reserved by the UsingParkedCar trips of a queue, in order. -/
def upcSpots (trips : List (Nat × TripSpec)) : List ParkingSpot :=
  trips.filterMap (fun t => tripSpot t.2)

/-- The vehicle id parked at a spot, per a parking state. -/
def resolveVehicleId (cars : List ParkedCar) (spot : ParkingSpot) : Option Nat :=
  (cars.find? (fun p => decide (p.spot = spot))).map (fun p => p.vehicle.id)

/-- The vehicle ids referenced by the UsingParkedCar trips of a queue,
resolved through a parking state, in order. -/
def upcVehicleIds (cars : List ParkedCar) (trips : List (Nat × TripSpec)) : List Nat :=
  (upcSpots trips).filterMap (resolveVehicleId cars)

/-- A property of every non-aborting outcome. -/
def okImplies {ε α : Type} (e : Except ε α) (P : α → Prop) : Prop :=
  ∀ a, e = .ok a → P a

/-- The Sim of an outcome of the spawn phase, whether it aborted or not. -/
def outcomeSim : Except (Panic × World) SpawnState → Sim
  | .ok st1 => st1.sim
  | .error e => e.2.sim

/-- The world reached after processing a prefix of SeedParkedCars requests
whose neighborhood names all resolve (the effect of the requests handled
before an abort). -/
def seedEffects (m : Map) (nbhds : List (String × FullNeighborhoodInfo)) :
    List SeedParkedCars → World → World
  | [], w => w
  | s :: rest, w =>
    match lookupNb nbhds s.neighborhood with
    | none => w
    | some info =>
      seedEffects m nbhds rest
        (seed_parked_cars w s.cars_per_building info.buildings info.roads m)

/-- The frame relation the spawn phase maintains between a starting and an
ending state: parked cars and realized trips unchanged, trips only
appended, and the reserved set extended by exactly the vehicle ids of the
appended drive-a-parked-car trips — each fresh for the starting reserved
set, and mutually distinct. -/
def SpawnFrame (st st2 : SpawnState) : Prop :=
  st2.sim.parkedCars = st.sim.parkedCars ∧
  st2.sim.spawnedTrips = st.sim.spawnedTrips ∧
  ∃ new, st2.sim.scheduledTrips = st.sim.scheduledTrips ++ new ∧
    st2.reserved = (upcVehicleIds st.sim.parkedCars new).reverse ++ st.reserved ∧
    (∀ id ∈ upcVehicleIds st.sim.parkedCars new, ¬ id ∈ st.reserved) ∧
    (upcVehicleIds st.sim.parkedCars new).Nodup

/-- The goal a driving/biking-goal resolution produced (none when
unresolved; the fatal branches do not arise at a Border). -/
def pickGoalOf (e : Except Panic (Option DrivingGoal × RngState × List Warning)) :
    Option DrivingGoal :=
  match e with
  | .ok x => x.1
  | .error _ => none

/-- The spot a walking-goal resolution produced. -/
def pickSpotOf (e : Except Panic (Option SidewalkSpot × RngState × List Warning)) :
    Option SidewalkSpot :=
  match e with
  | .ok x => x.1
  | .error _ => none

/-- The number of parked cars seeded into the Sim at the moment of a fatal
abort (none when the run succeeded). -/
def abortParkedCount (e : Except (Panic × World) World) : Option Nat :=
  match e with
  | .error pw => some pw.2.sim.parkedCars.length
  | .ok _ => none

/-- The spawn time of the last realized trip of a successful run. -/
def lastSpawnTime (e : Except (Panic × World) World) : Option Nat :=
  match e with
  | .ok w => (w.sim.spawnedTrips.map Prod.fst).getLast?
  | .error _ => none

/-- Advance the base stream by n forks. -/
def forkN : Nat → RngState → RngState
  | 0, r => r
  | n + 1, r => forkN n (fork_rng r).2

/-- The total vehicle count a SeedParkedCars pass requests: replay of the
base-stream consumption of the per-building loop (one draw per sample, one
per fork), which is independent of spot availability. -/
def sampledTotal (wuc : WeightedUsizeChoice) : List Nat → RngState → Nat
  | [], _ => 0
  | _ :: rest, r =>
    (wuc.sample r).1 + sampledTotal wuc rest (forkN (wuc.sample r).1 (wuc.sample r).2)

/-- The number of no-room warnings in a report. -/
def countNoRoom (ws : List Warning) : Nat :=
  ws.countP (fun w =>
    match w with
    | .noRoom _ _ _ _ => true
    | _ => false)

/-! ### Concrete fixtures for witnesses and counterexamples -/

/-- A featureless map every fixture refines. -/
def trivMap : Map where
  get_r := fun i => ⟨i, [], []⟩
  building_to_road := fun _ => 0
  bldgSidewalkPos := fun _ => ⟨0, 0⟩
  incomingLanes := fun _ _ => []
  outgoingLanes := fun _ _ => []
  get_next_roads := fun _ => []
  laneLength := fun _ => 0
  laneSlots := fun _ => 0
  parentSupportsBikes := fun _ => false
  laneTypeOf := fun _ => .Driving
  borderSidewalkPos := fun _ => none
  should_use_transit := fun _ _ => none
  neighborhoodsList := []

/-- A fresh orchestrator world. -/
def w0 : World := ⟨⟨0, [], [], []⟩, ⟨0⟩, []⟩

/-- A map with one single-building neighborhood n. -/
def c2map : Map :=
  { trivMap with neighborhoodsList := [("n", ⟨[0], []⟩)] }

/-- A walking-only SpawnOverTime batch of n agents from neighborhood n. -/
def c2spawn (n : Nat) : SpawnOverTime :=
  ⟨n, 0, 100, "n", .Neighborhood "n", 0, 0⟩

/-- Two identical one-agent batches. -/
def c2scnA : Scenario := ⟨"a", "m", [], [c2spawn 1, c2spawn 1], []⟩

/-- The same scenario with the first batch's cardinality dropped to 0. -/
def c2scnB : Scenario := ⟨"a", "m", [], [c2spawn 0, c2spawn 1], []⟩

/-- A map whose neighborhood a holds one building on road 0, which has one
one-slot parking lane. -/
def c8map : Map :=
  { trivMap with
    neighborhoodsList := [("a", ⟨[0], [0]⟩)]
    get_r := fun i => ⟨i, [(0, .Parking)], []⟩
    laneSlots := fun _ => 1 }

/-- The constant-one vehicles-per-building distribution. -/
def wuc1 : WeightedUsizeChoice := ⟨[1]⟩

/-- A scenario whose first seed request is valid and seeds one car, and
whose second references the undefined neighborhood zz. -/
def c8scn : Scenario := ⟨"s", "m", [⟨"a", wuc1⟩, ⟨"zz", wuc1⟩], [], []⟩

/-- A map with neighborhood n, a driving lane 3 into border 7, and a
sidewalk at every border. -/
def c5map : Map :=
  { trivMap with
    neighborhoodsList := [("n", ⟨[0], []⟩)]
    incomingLanes := fun i ty =>
      if i = 7 then
        match ty with
        | .Driving => [3]
        | _ => []
      else []
    borderSidewalkPos := fun _ => some ⟨9, 0⟩ }

/-- A Sim owning one parked car (id 0, spot lane 2 slot 0) at building 0. -/
def c5sim : Sim := ⟨1, [⟨⟨0, ⟨.Car, 45, none⟩⟩, ⟨2, 0⟩, some 0⟩], [], []⟩

/-- A two-agent batch from neighborhood n heading to border 7. -/
def c5batch : SpawnOverTime := ⟨2, 0, 100, "n", .Border 7, 0, 0⟩

/-- The spawn-phase state starting from c5sim with nothing reserved. -/
def c5st : SpawnState := ⟨c5sim, ⟨0⟩, [], []⟩

/-- An orchestrator tracking driving lane 5 and nothing else. -/
def c7sim : SimRs := ⟨⟨0⟩, 0, 0, none, ⟨[5], [], []⟩, ⟨[]⟩, ⟨[], []⟩⟩

/-- A map under which every lane is currently a parking lane. -/
def c7map : Map :=
  { trivMap with laneTypeOf := fun _ => .Parking }

/-- Two road spot stacks for the parking-locality witness. -/
def c3sm : SpotsMap := [(0, [⟨4, 0⟩]), (1, [⟨6, 0⟩])]

/-- An orchestrator with one active stuck car (id 2) for the car-state
witness. -/
def c9sim : SimRs := ⟨⟨0⟩, 0, 0, none, ⟨[], [], [(2, ⟨some 11, false⟩)]⟩, ⟨[]⟩, ⟨[], []⟩⟩

/-! ### Helper lemmas -/

/-- Vec::pop on a non-empty list succeeds. -/
theorem vecPop_of_ne_nil {α : Type} (l : List α) (h : ¬ l = []) :
    ∃ y rest, vecPop l = some (y, rest) := by
  cases l with
  | nil => exact absurd rfl h
  | cons x xs =>
    cases hx : vecPop xs with
    | none => exact ⟨x, [], by simp [vecPop, hx]⟩
    | some yr => exact ⟨yr.1, x :: yr.2, by simp [vecPop, hx]⟩

/-- Vec::pop returns an element of the list. -/
theorem vecPop_mem {α : Type} :
    ∀ (l : List α) (y : α) (rest : List α), vecPop l = some (y, rest) → y ∈ l
  | [], y, rest, h => by simp [vecPop] at h
  | x :: xs, y, rest, h => by
    simp only [vecPop] at h
    cases hx : vecPop xs with
    | none =>
      rw [hx] at h
      simp only [Option.some.injEq, Prod.mk.injEq] at h
      simp [h.1]
    | some yr =>
      rw [hx] at h
      simp only [Option.some.injEq, Prod.mk.injEq] at h
      have hm := vecPop_mem xs yr.1 yr.2 (by rw [hx])
      simp [← h.1, hm]

/-- Vec::pop removes exactly one element. -/
theorem vecPop_length {α : Type} :
    ∀ (l : List α) (y : α) (rest : List α), vecPop l = some (y, rest) →
      rest.length + 1 = l.length
  | [], y, rest, h => by simp [vecPop] at h
  | x :: xs, y, rest, h => by
    simp only [vecPop] at h
    cases hx : vecPop xs with
    | none =>
      rw [hx] at h
      simp only [Option.some.injEq, Prod.mk.injEq] at h
      cases xs with
      | nil => simp [← h.2]
      | cons z zs => simp [vecPop] at hx; cases hvz : vecPop zs <;> simp [hvz] at hx
    | some yr =>
      rw [hx] at h
      simp only [Option.some.injEq, Prod.mk.injEq] at h
      have hl := vecPop_length xs yr.1 yr.2 (by rw [hx])
      simp [← h.2, Nat.succ_eq_add_one]
      omega

/-- Updating one road's stack leaves every other road's stack alone. -/
theorem lookupSpots_updateSpots_ne :
    ∀ (sm : SpotsMap) (r r' : Nat) (l : List ParkingSpot), ¬ r' = r →
      lookupSpots (updateSpots sm r l) r' = lookupSpots sm r'
  | [], _, _, _, _ => rfl
  | kv :: rest, r, r', l, h => by
    by_cases hk : kv.1 = r
    · have hr : ¬ r = r' := fun hc => h hc.symm
      simp [updateSpots, lookupSpots, hk, hr]
    · simp [updateSpots, lookupSpots, hk]
      by_cases hk2 : kv.1 = r'
      · simp [hk2]
      · simp [hk2, lookupSpots_updateSpots_ne rest r r' l h]

/-! ### Claim theorems -/

/-- C1: instantiation is a pure function of the scenario, the map and the
starting world (Sim state plus seeded random stream): two runs from
identical inputs produce the same outcome, in particular the same ordered
sequence of realized trips and the same parking assignments (each seeded
vehicle bound to the same spot and owner).  The Sim operations and random
stream are spec-modelled, deterministic by construction as the spec
requires; the instantiator itself threads them with no other source of
nondeterminism. -/
theorem instantiate_deterministic (scn : Scenario) (m : Map) (w1 w2 : World)
    (h : w1 = w2) :
    scn.instantiate m w1 = scn.instantiate m w2 ∧
    (scn.instantiate m w1).map (fun w => w.sim.spawnedTrips) =
      (scn.instantiate m w2).map (fun w => w.sim.spawnedTrips) ∧
    (scn.instantiate m w1).map (fun w => w.sim.parkedCars) =
      (scn.instantiate m w2).map (fun w => w.sim.parkedCars) := by
  subst h
  exact ⟨rfl, rfl, rfl⟩

/-- Witness for C1 at a concrete scenario, map and world. -/
theorem instantiate_deterministic_witness :
    c2scnA.instantiate c2map w0 = c2scnA.instantiate c2map w0 ∧
    (c2scnA.instantiate c2map w0).map (fun w => w.sim.spawnedTrips) =
      (c2scnA.instantiate c2map w0).map (fun w => w.sim.spawnedTrips) ∧
    (c2scnA.instantiate c2map w0).map (fun w => w.sim.parkedCars) =
      (c2scnA.instantiate c2map w0).map (fun w => w.sim.parkedCars) :=
  instantiate_deterministic c2scnA c2map w0 w0 rfl

/-- C2 counterexample: the claim says every sampling decision draws from a
forked child stream, so that dropping one request leaves the random values
consumed by every other request unchanged.  In the code the spawn-time,
building-choice and mode-roll draws of SpawnOverTime agents consume the
shared base stream directly (rand_time(rng, ..), buildings.choose(rng),
rng.gen_bool): dropping the first one-agent batch of c2scnA (making c2scnB)
changes the spawn time realized for the identical second batch from 5 to
0. -/
theorem base_stream_perturbed_by_unrelated_request :
    lastSpawnTime (c2scnA.instantiate c2map w0) = some 5 ∧
    lastSpawnTime (c2scnB.instantiate c2map w0) = some 0 := by
  constructor <;> rfl

/-- C9: get_car_state is a total pure projection of the driving state: for
every CarID, including ids never issued, it returns Parked when the driving
subsystem holds no active record, Moving when the record is not waiting,
and Stuck when it is waiting.  It is a plain function of the Sim (it cannot
fail or mutate state); the driving-record table is spec-modelled as an
association list. -/
theorem get_car_state_projection (s : SimRs) (c : Nat) :
    (lookupCar s.driving_state.cars c = none → s.get_car_state c = .Parked) ∧
    (∀ d, lookupCar s.driving_state.cars c = some d →
      (d.waiting_for = none → s.get_car_state c = .Moving) ∧
      (∀ x, d.waiting_for = some x → s.get_car_state c = .Stuck)) := by
  refine ⟨fun h => by simp [SimRs.get_car_state, h], fun d hd => ⟨fun hw => ?_, fun x hx => ?_⟩⟩
  · simp [SimRs.get_car_state, hd, hw, Option.isNone]
  · simp [SimRs.get_car_state, hd, hx, Option.isNone]

/-- Witness for C9: an untracked id projects to Parked, a waiting record to
Stuck. -/
theorem get_car_state_projection_witness :
    lookupCar c9sim.driving_state.cars 3 = none ∧
    c9sim.get_car_state 3 = .Parked ∧
    lookupCar c9sim.driving_state.cars 2 = some ⟨some 11, false⟩ ∧
    c9sim.get_car_state 2 = .Stuck :=
  ⟨by decide, (get_car_state_projection c9sim 3).1 (by decide), by decide,
    ((get_car_state_projection c9sim 2).2 ⟨some 11, false⟩ (by decide)).2 11 (by decide)⟩

/-- C3: parking locality.  When the stack of the building's own road still
holds a free spot at call time, find_spot_near_building pops and returns a
spot of that stack on the very first BFS iteration — before any spot of any
other road is considered or removed (every other road's stack is returned
unchanged). -/
theorem find_spot_prefers_own_road (b : Nat) (sm : SpotsMap) (nbr : List Nat) (m : Map)
    (stack : List ParkingSpot)
    (hlk : lookupSpots sm (m.building_to_road b) = some stack)
    (hne : ¬ stack = []) :
    ∃ spot rest,
      vecPop stack = some (spot, rest) ∧ spot ∈ stack ∧
      find_spot_near_building b sm nbr m =
        (some spot, updateSpots sm (m.building_to_road b) rest, false) ∧
      ∀ r', ¬ r' = m.building_to_road b →
        lookupSpots (updateSpots sm (m.building_to_road b) rest) r' = lookupSpots sm r' := by
  obtain ⟨y, rest, hpop⟩ := vecPop_of_ne_nil stack hne
  refine ⟨y, rest, hpop, vecPop_mem stack y rest hpop, ?_,
    fun r' hr' => lookupSpots_updateSpots_ne sm (m.building_to_road b) r' rest hr'⟩
  show findSpotBFS m nbr (nbr.length + 2) _ _ sm = _
  have hfuel : nbr.length + 2 = (nbr.length + 1) + 1 := rfl
  rw [hfuel, findSpotBFS, hlk]
  simp [hpop]

/-- Witness for C3 at a concrete stack map: the spot comes off road 0's
stack and road 1 is untouched. -/
theorem find_spot_prefers_own_road_witness :
    lookupSpots c3sm (trivMap.building_to_road 5) = some [⟨4, 0⟩] ∧
    (∃ spot rest,
      vecPop [(⟨4, 0⟩ : ParkingSpot)] = some (spot, rest) ∧ spot ∈ [(⟨4, 0⟩ : ParkingSpot)] ∧
      find_spot_near_building 5 c3sm [0, 1] trivMap =
        (some spot, updateSpots c3sm (trivMap.building_to_road 5) rest, false) ∧
      ∀ r', ¬ r' = trivMap.building_to_road 5 →
        lookupSpots (updateSpots c3sm (trivMap.building_to_road 5) rest) r' =
          lookupSpots c3sm r') :=
  ⟨by decide,
    find_spot_prefers_own_road 5 c3sm [0, 1] trivMap [⟨4, 0⟩] (by decide) (by decide)⟩

/-- C6: border goal resolution.  At a border intersection i, driving-goal
resolution is unresolved (none, with a warning) exactly when i has no
incoming driving lane, and otherwise yields the first incoming driving
lane; walking-goal resolution is unresolved (none, with a warning) exactly
when i has no sidewalk endpoint (end_at_border, spec-modelled, is some iff
the border has a sidewalk). -/
theorem border_goal_resolution (m : Map) (nbhds : List (String × FullNeighborhoodInfo))
    (i : Nat) (r : RngState) (ws : List Warning) :
    (pickGoalOf ((OriginDestination.Border i).pick_driving_goal m nbhds r ws) = none ↔
      m.incomingLanes i .Driving = []) ∧
    (∀ l rest, m.incomingLanes i .Driving = l :: rest →
      (OriginDestination.Border i).pick_driving_goal m nbhds r ws =
        .ok (some (.Border i l), r, ws)) ∧
    (m.incomingLanes i .Driving = [] →
      (OriginDestination.Border i).pick_driving_goal m nbhds r ws =
        .ok (none, r, ws ++ [.noDrivingGoalAtBorder i])) ∧
    (pickSpotOf ((OriginDestination.Border i).pick_walking_goal m nbhds r ws) = none ↔
      m.borderSidewalkPos i = none) ∧
    (m.borderSidewalkPos i = none →
      (OriginDestination.Border i).pick_walking_goal m nbhds r ws =
        .ok (none, r, ws ++ [.noWalkingGoalAtBorder i])) := by
  cases hl : m.incomingLanes i .Driving <;> cases hp : m.borderSidewalkPos i <;>
    simp [OriginDestination.pick_driving_goal, OriginDestination.pick_walking_goal,
      pickGoalOf, pickSpotOf, end_at_border, hl, hp]

/-- Witness for C6: at border 7 of c5map the first incoming driving lane 3
becomes the goal. -/
theorem border_goal_resolution_witness :
    c5map.incomingLanes 7 .Driving = 3 :: [] ∧
    (OriginDestination.Border 7).pick_driving_goal c5map [] ⟨0⟩ [] =
      .ok (some (.Border 7 3), ⟨0⟩, []) :=
  ⟨by decide, (border_goal_resolution c5map [] 7 ⟨0⟩ []).2.1 3 [] (by decide)⟩

/-- C7 counterexample: the claim says each edit call routes the change to
exactly one movement subsystem, leaving the other two unchanged.
edit_lane_type routes by two classifications — the old lane type for the
removal and the map's current lane type for the addition — so retyping
tracked driving lane 5 into a parking lane modifies both the driving and
the parking subsystem in one call. -/
theorem edit_lane_type_touches_two_subsystems :
    ¬ (c7sim.edit_lane_type 5 .Driving c7map).driving_state = c7sim.driving_state ∧
    ¬ (c7sim.edit_lane_type 5 .Driving c7map).parking_state = c7sim.parking_state := by
  decide

/-- C7 amended: edit_lane_type routes the removal to the subsystem of the
old lane type and the addition to the subsystem of the lane's current type
(Biking routes nowhere), so at most those two subsystems change and the
rest of the Sim state (time, rng, car_id_counter) never does; the turn
edits route to exactly one of walking/driving by the turn's sidewalk
classification and never touch parking; and (with the subsystems
spec-modelled as tracked sets) removing an untracked element is a no-op,
so every call is safe. -/
theorem edit_routing_amended :
    (∀ (s : SimRs) (id : Nat) (old : LaneType) (m : Map),
      (s.edit_lane_type id old m).time = s.time ∧
      (s.edit_lane_type id old m).rng = s.rng ∧
      (s.edit_lane_type id old m).car_id_counter = s.car_id_counter ∧
      ((¬ old = .Driving) → (¬ m.laneTypeOf id = .Driving) →
        (s.edit_lane_type id old m).driving_state = s.driving_state) ∧
      ((¬ old = .Parking) → (¬ m.laneTypeOf id = .Parking) →
        (s.edit_lane_type id old m).parking_state = s.parking_state) ∧
      ((¬ old = .Sidewalk) → (¬ m.laneTypeOf id = .Sidewalk) →
        (s.edit_lane_type id old m).walking_state = s.walking_state)) ∧
    (∀ (s : SimRs) (t : Turn),
      (s.edit_add_turn t).parking_state = s.parking_state ∧
      (s.edit_remove_turn t).parking_state = s.parking_state ∧
      (s.edit_add_turn t).time = s.time ∧
      (s.edit_remove_turn t).time = s.time ∧
      (s.edit_add_turn t).rng = s.rng ∧
      (s.edit_remove_turn t).rng = s.rng ∧
      (s.edit_add_turn t).car_id_counter = s.car_id_counter ∧
      (s.edit_remove_turn t).car_id_counter = s.car_id_counter ∧
      (t.between_sidewalks = true →
        (s.edit_add_turn t).driving_state = s.driving_state ∧
        (s.edit_remove_turn t).driving_state = s.driving_state) ∧
      (t.between_sidewalks = false →
        (s.edit_add_turn t).walking_state = s.walking_state ∧
        (s.edit_remove_turn t).walking_state = s.walking_state)) ∧
    (∀ (d : DrivingSimState) (id : Nat), ¬ id ∈ d.lanes → d.edit_remove_lane id = d) ∧
    (∀ (wk : WalkingSimState) (id : Nat), ¬ id ∈ wk.turns → wk.edit_remove_turn id = wk) := by
  refine ⟨fun s id old m => ?_, fun s t => ?_, fun d id hid => ?_, fun wk id hid => ?_⟩
  · cases old <;> cases hm : m.laneTypeOf id <;>
      simp_all [SimRs.edit_lane_type, DrivingSimState.edit_remove_lane,
        DrivingSimState.edit_add_lane, ParkingSimState.edit_remove_lane,
        ParkingSimState.edit_add_lane, WalkingSimState.edit_remove_lane,
        WalkingSimState.edit_add_lane]
  · cases ht : t.between_sidewalks <;>
      simp_all [SimRs.edit_add_turn, SimRs.edit_remove_turn,
        DrivingSimState.edit_add_turn, DrivingSimState.edit_remove_turn,
        WalkingSimState.edit_add_turn, WalkingSimState.edit_remove_turn]
  · cases d with
    | mk lanes turns cars =>
      simp only [DrivingSimState.edit_remove_lane]
      congr 1
      rw [List.filter_eq_self]
      intro a ha
      simp only [decide_eq_true_eq]
      intro hc
      exact hid (hc ▸ ha)
  · cases wk with
    | mk lanes turns =>
      simp only [WalkingSimState.edit_remove_turn]
      congr 1
      rw [List.filter_eq_self]
      intro a ha
      simp only [decide_eq_true_eq]
      intro hc
      exact hid (hc ▸ ha)

/-- Witness for C7 amended: retyping lane 5 leaves the walking subsystem
and the scalar Sim state of c7sim unchanged, and removing the untracked
turn 9 is a no-op on the driving turns. -/
theorem edit_routing_amended_witness :
    (c7sim.edit_lane_type 5 .Driving c7map).walking_state = c7sim.walking_state ∧
    (c7sim.edit_lane_type 5 .Driving c7map).time = c7sim.time ∧
    c7sim.driving_state.edit_remove_lane 9 = c7sim.driving_state :=
  ⟨(edit_routing_amended.1 c7sim 5 .Driving c7map).2.2.2.2.2 (by decide) (by decide),
    (edit_routing_amended.1 c7sim 5 .Driving c7map).1,
    edit_routing_amended.2.2.1 c7sim.driving_state 9 (by decide)⟩

/-- C8 counterexample: the claim says an undefined neighborhood name aborts
instantiation with no partial effect.  The check runs inside the request
loop, so in c8scn the first, valid request has already seeded one parked
car into the Sim when the second request's undefined name "zz" panics: the
world at the abort holds 1 parked car, not 0. -/
theorem abort_after_partial_seeding :
    abortParkedCount (c8scn.instantiate c8map w0) = some 1 := by
  rfl

/-- Seeding vehicles never touches the realized-trip list. -/
theorem seedVehicles_spawnedTrips (m : Map) (nbr : List Nat) (b t l : Nat) :
    ∀ (n : Nat) (sim : Sim) (sm : SpotsMap) (r : RngState) (nc : Nat) (ws : List Warning),
      (seedVehicles m nbr b t l n sim sm r nc ws).1.spawnedTrips = sim.spawnedTrips
  | 0, sim, sm, r, nc, ws => rfl
  | n + 1, sim, sm, r, nc, ws => by
    rw [seedVehicles]
    cases hf : find_spot_near_building b sm nbr m with
    | mk o rest =>
      cases o with
      | some spot =>
        simp only
        rw [seedVehicles_spawnedTrips m nbr b t l n]
        rfl
      | none =>
        simp only
        rw [seedVehicles_spawnedTrips m nbr b t l n]

/-- The per-building seeding loop never touches the realized-trip list. -/
theorem seedBuildings_spawnedTrips (m : Map) (nbr : List Nat) (wuc : WeightedUsizeChoice)
    (t l : Nat) :
    ∀ (bldgs : List Nat) (sim : Sim) (sm : SpotsMap) (r : RngState) (nc : Nat)
      (ws : List Warning),
      (seedBuildings m nbr wuc t l bldgs sim sm r nc ws).1.spawnedTrips = sim.spawnedTrips
  | [], sim, sm, r, nc, ws => rfl
  | b :: rest, sim, sm, r, nc, ws => by
    rw [seedBuildings, seedBuildings_spawnedTrips m nbr wuc t l rest,
      seedVehicles_spawnedTrips]

/-- seed_parked_cars never touches the realized-trip list. -/
theorem seed_parked_cars_spawnedTrips (w : World) (wuc : WeightedUsizeChoice)
    (bldgs roads : List Nat) (m : Map) :
    (seed_parked_cars w wuc bldgs roads m).sim.spawnedTrips = w.sim.spawnedTrips := by
  rw [seed_parked_cars]
  exact seedBuildings_spawnedTrips m roads wuc _ _ bldgs w.sim _ _ 0 w.warnings

/-- A seed request naming an undefined neighborhood makes the seed phase
abort, and the realized-trip list at the abort is the initial one. -/
theorem seedPhase_aborts (m : Map) (nbhds : List (String × FullNeighborhoodInfo)) :
    ∀ (reqs : List SeedParkedCars) (w : World),
      (∃ s ∈ reqs, lookupNb nbhds s.neighborhood = none) →
      ∃ p w2, seedPhase m nbhds reqs w = .error (p, w2) ∧
        w2.sim.spawnedTrips = w.sim.spawnedTrips
  | [], w, h => by simp at h
  | s :: rest, w, h => by
    cases hs : lookupNb nbhds s.neighborhood with
    | none => exact ⟨.neighborhoodUndefined s.neighborhood, w, by rw [seedPhase, hs], rfl⟩
    | some info =>
      have hrest : ∃ s2 ∈ rest, lookupNb nbhds s2.neighborhood = none := by
        obtain ⟨s2, hmem, hlk⟩ := h
        rcases List.mem_cons.mp hmem with heq | hmem2
        · rw [heq, hs] at hlk; cases hlk
        · exact ⟨s2, hmem2, hlk⟩
      obtain ⟨p, w2, hrun, htrips⟩ := seedPhase_aborts m nbhds rest
        (seed_parked_cars w s.cars_per_building info.buildings info.roads m) hrest
      exact ⟨p, w2, by rw [seedPhase, hs]; exact hrun,
        by rw [htrips, seed_parked_cars_spawnedTrips]⟩

/-- The world after a prefix of defined seed requests keeps the
realized-trip list of the starting world. -/
theorem seedEffects_spawnedTrips (m : Map) (nbhds : List (String × FullNeighborhoodInfo)) :
    ∀ (reqs : List SeedParkedCars) (w : World),
      (seedEffects m nbhds reqs w).sim.spawnedTrips = w.sim.spawnedTrips
  | [], w => rfl
  | s :: rest, w => by
    rw [seedEffects]
    cases hs : lookupNb nbhds s.neighborhood with
    | none => rfl
    | some info =>
      show (seedEffects m nbhds rest
          (seed_parked_cars w s.cars_per_building info.buildings info.roads m)).sim.spawnedTrips =
        w.sim.spawnedTrips
      rw [seedEffects_spawnedTrips m nbhds rest, seed_parked_cars_spawnedTrips]

/-- The seed phase aborts exactly at the first request naming an undefined
neighborhood, the error carrying that name and the world holding precisely
the effects of the earlier, defined requests. -/
theorem seedPhase_abort_at (m : Map) (nbhds : List (String × FullNeighborhoodInfo))
    (s : SeedParkedCars) (post : List SeedParkedCars) :
    ∀ (pre : List SeedParkedCars) (w : World),
      (∀ s2 ∈ pre, (lookupNb nbhds s2.neighborhood).isSome) →
      lookupNb nbhds s.neighborhood = none →
      seedPhase m nbhds (pre ++ s :: post) w =
        .error (.neighborhoodUndefined s.neighborhood, seedEffects m nbhds pre w)
  | [], w, _, hs => by
    rw [List.nil_append, seedPhase, hs]
    rfl
  | s2 :: rest, w, hpre, hs => by
    obtain ⟨info, hinfo⟩ :=
      Option.isSome_iff_exists.mp (hpre s2 (List.mem_cons_self s2 rest))
    rw [List.cons_append, seedPhase, seedEffects, hinfo]
    show seedPhase m nbhds (rest ++ s :: post)
        (seed_parked_cars w s2.cars_per_building info.buildings info.roads m) =
      .error (.neighborhoodUndefined s.neighborhood,
        seedEffects m nbhds rest
          (seed_parked_cars w s2.cars_per_building info.buildings info.roads m))
    exact seedPhase_abort_at m nbhds s post rest _
      (fun x hx => hpre x (List.mem_cons_of_mem s2 hx)) hs

/-- When every seed request's neighborhood is defined, the seed phase
succeeds and keeps the realized-trip list. -/
theorem seedPhase_ok (m : Map) (nbhds : List (String × FullNeighborhoodInfo)) :
    ∀ (reqs : List SeedParkedCars) (w : World),
      (∀ s ∈ reqs, (lookupNb nbhds s.neighborhood).isSome) →
      ∃ w1, seedPhase m nbhds reqs w = .ok w1 ∧
        w1.sim.spawnedTrips = w.sim.spawnedTrips
  | [], w, _ => ⟨w, rfl, rfl⟩
  | s :: rest, w, hall => by
    obtain ⟨info, hinfo⟩ :=
      Option.isSome_iff_exists.mp (hall s (List.mem_cons_self s rest))
    obtain ⟨w1, hrun, htr⟩ := seedPhase_ok m nbhds rest
      (seed_parked_cars w s.cars_per_building info.buildings info.roads m)
      (fun s2 hs2 => hall s2 (List.mem_cons_of_mem s hs2))
    refine ⟨w1, ?_, ?_⟩
    · rw [seedPhase, hinfo]
      exact hrun
    · rw [htr, seed_parked_cars_spawnedTrips]

/-- Whatever one agent of the spawn phase does — schedule, skip, or abort —
the realized-trip list of the outcome is the starting one. -/
theorem spawnAgent_outcome (goalOd : OriginDestination) (startT stopT pb pt : Nat)
    (m : Map) (nbhds : List (String × FullNeighborhoodInfo))
    (info : FullNeighborhoodInfo) (st : SpawnState)
    (x : Except (Panic × World) SpawnState)
    (h : spawnAgent goalOd startT stopT pb pt m nbhds info st = x) :
    (outcomeSim x).spawnedTrips = st.sim.spawnedTrips := by
  simp only [spawnAgent] at h
  repeat' first
  | split at h
  | (subst h; rfl)

/-- The per-agent loop preserves the realized-trip list in every outcome. -/
theorem spawnAgents_outcome (s : SpawnOverTime) (m : Map)
    (nbhds : List (String × FullNeighborhoodInfo)) (info : FullNeighborhoodInfo) :
    ∀ (n : Nat) (st : SpawnState) (x : Except (Panic × World) SpawnState),
      spawnAgents s m nbhds info n st = x →
      (outcomeSim x).spawnedTrips = st.sim.spawnedTrips
  | 0, st, x, h => by
    subst h
    rfl
  | n + 1, st, x, h => by
    rw [spawnAgents] at h
    cases ha : spawnAgent s.goal s.start_time s.stop_time s.percent_biking
        s.percent_use_transit m nbhds info st with
    | error e =>
      rw [ha] at h
      subst h
      exact spawnAgent_outcome s.goal s.start_time s.stop_time s.percent_biking
        s.percent_use_transit m nbhds info st (.error e) ha
    | ok st1 =>
      rw [ha] at h
      have h1 := spawnAgent_outcome s.goal s.start_time s.stop_time s.percent_biking
        s.percent_use_transit m nbhds info st (.ok st1) ha
      have h2 := spawnAgents_outcome s m nbhds info n st1 x (by exact h)
      rw [h2]
      exact h1

/-- One batch preserves the realized-trip list in every outcome. -/
theorem spawnBatch_outcome (s : SpawnOverTime) (m : Map)
    (nbhds : List (String × FullNeighborhoodInfo)) (st : SpawnState)
    (x : Except (Panic × World) SpawnState) (h : spawnBatch s m nbhds st = x) :
    (outcomeSim x).spawnedTrips = st.sim.spawnedTrips := by
  rw [spawnBatch] at h
  cases hlk : lookupNb nbhds s.start_from_neighborhood with
  | none =>
    rw [hlk] at h
    subst h
    rfl
  | some info =>
    rw [hlk] at h
    exact spawnAgents_outcome s m nbhds info s.num_agents st x (by exact h)

/-- The whole spawn phase preserves the realized-trip list in every
outcome, aborts included. -/
theorem spawnPhase_outcome (m : Map) (nbhds : List (String × FullNeighborhoodInfo)) :
    ∀ (batches : List SpawnOverTime) (st : SpawnState)
      (x : Except (Panic × World) SpawnState),
      spawnPhase m nbhds batches st = x →
      (outcomeSim x).spawnedTrips = st.sim.spawnedTrips
  | [], st, x, h => by
    subst h
    rfl
  | s :: rest, st, x, h => by
    rw [spawnPhase] at h
    cases hb : spawnBatch s m nbhds st with
    | error e =>
      rw [hb] at h
      subst h
      exact spawnBatch_outcome s m nbhds st (.error e) hb
    | ok st1 =>
      rw [hb] at h
      have h1 := spawnBatch_outcome s m nbhds st (.ok st1) hb
      have h2 := spawnPhase_outcome m nbhds rest st1 x (by exact h)
      rw [h2]
      exact h1

/-- A batch naming an undefined source neighborhood makes the spawn phase
abort fatally. -/
theorem spawnPhase_has_error (m : Map) (nbhds : List (String × FullNeighborhoodInfo)) :
    ∀ (batches : List SpawnOverTime) (st : SpawnState),
      (∃ s ∈ batches, lookupNb nbhds s.start_from_neighborhood = none) →
      ∃ e, spawnPhase m nbhds batches st = .error e
  | [], st, h => by simp at h
  | s :: rest, st, h => by
    rw [spawnPhase]
    cases hb : spawnBatch s m nbhds st with
    | error e => exact ⟨e, rfl⟩
    | ok st1 =>
      have hrest : ∃ s2 ∈ rest, lookupNb nbhds s2.start_from_neighborhood = none := by
        obtain ⟨s2, hmem, hlk⟩ := h
        rcases List.mem_cons.mp hmem with heq | hmem2
        · rw [heq] at hlk
          rw [spawnBatch, hlk] at hb
          exact Except.noConfusion hb
        · exact ⟨s2, hmem2, hlk⟩
      obtain ⟨e, he⟩ := spawnPhase_has_error m nbhds rest st1 hrest
      exact ⟨e, by exact he⟩

/-- C8 amended: any demand request referencing an undefined neighborhood
name still aborts instantiation fatally, but at the moment the reference is
checked, not before any earlier effect.  (i) A seed request whose name is
undefined, all earlier seed requests being defined, aborts instantiation
exactly when it is reached: the error carries the undefined name and the
world holding precisely the earlier requests' seeding, where no queued trip
has been realized.  (ii) A SpawnOverTime batch whose source neighborhood is
undefined aborts the moment the batch is reached, with the state as it then
stands.  (iii) Hence with all seed names defined and some spawn batch's
source name undefined, the whole instantiation aborts fatally with no trip
realized.  (iv) Goal resolution consulting an undefined neighborhood name
aborts fatally, for all three travel modes. -/
theorem undefined_neighborhood_aborts :
    (∀ (scn : Scenario) (m : Map) (w : World) (pre : List SeedParkedCars)
      (s : SeedParkedCars) (post : List SeedParkedCars),
      scn.seed_parked_cars = pre ++ s :: post →
      (∀ s2 ∈ pre, (lookupNb m.neighborhoodsList s2.neighborhood).isSome) →
      lookupNb m.neighborhoodsList s.neighborhood = none →
      scn.instantiate m w =
        .error (.neighborhoodUndefined s.neighborhood,
          seedEffects m m.neighborhoodsList pre w) ∧
      (seedEffects m m.neighborhoodsList pre w).sim.spawnedTrips =
        w.sim.spawnedTrips) ∧
    (∀ (s : SpawnOverTime) (m : Map) (nbhds : List (String × FullNeighborhoodInfo))
      (st : SpawnState),
      lookupNb nbhds s.start_from_neighborhood = none →
      spawnBatch s m nbhds st =
        .error (.neighborhoodUndefined s.start_from_neighborhood, st.world)) ∧
    (∀ (scn : Scenario) (m : Map) (w : World),
      (∀ s2 ∈ scn.seed_parked_cars,
        (lookupNb m.neighborhoodsList s2.neighborhood).isSome) →
      (∃ s ∈ scn.spawn_over_time,
        lookupNb m.neighborhoodsList s.start_from_neighborhood = none) →
      ∃ p w2, scn.instantiate m w = .error (p, w2) ∧
        w2.sim.spawnedTrips = w.sim.spawnedTrips) ∧
    (∀ (n : String) (m : Map) (nbhds : List (String × FullNeighborhoodInfo))
      (r : RngState) (ws : List Warning),
      lookupNb nbhds n = none →
      (OriginDestination.Neighborhood n).pick_driving_goal m nbhds r ws =
        .error (.neighborhoodUndefined n) ∧
      (OriginDestination.Neighborhood n).pick_biking_goal m nbhds r ws =
        .error (.neighborhoodUndefined n) ∧
      (OriginDestination.Neighborhood n).pick_walking_goal m nbhds r ws =
        .error (.neighborhoodUndefined n)) := by
  refine ⟨?_, ?_, ?_, ?_⟩
  · intro scn m w pre s post hsplit hpre hs
    refine ⟨?_, seedEffects_spawnedTrips m m.neighborhoodsList pre w⟩
    simp only [Scenario.instantiate, hsplit]
    rw [seedPhase_abort_at m m.neighborhoodsList s post pre w hpre hs]
  · intro s m nbhds st hlk
    rw [spawnBatch, hlk]
  · intro scn m w hseeds hspawn
    obtain ⟨w1, hrun, htr1⟩ :=
      seedPhase_ok m m.neighborhoodsList scn.seed_parked_cars w hseeds
    obtain ⟨e, he⟩ := spawnPhase_has_error m m.neighborhoodsList scn.spawn_over_time
      ⟨w1.sim, w1.rng, w1.warnings, []⟩ hspawn
    have htr2 := spawnPhase_outcome m m.neighborhoodsList scn.spawn_over_time
      ⟨w1.sim, w1.rng, w1.warnings, []⟩ (.error e) he
    refine ⟨e.1, e.2, ?_, ?_⟩
    · have hstep : scn.instantiate m w =
          match spawnPhase m m.neighborhoodsList scn.spawn_over_time
              ⟨w1.sim, w1.rng, w1.warnings, []⟩ with
          | .error e2 => .error e2
          | .ok st =>
            match borderPhase m m.neighborhoodsList scn.border_spawn_over_time
                st.world with
            | .error e2 => .error e2
            | .ok w3 => .ok ⟨w3.sim.spawn_all_trips, w3.rng, w3.warnings⟩ := by
        simp only [Scenario.instantiate]
        rw [hrun]
      rw [hstep, he]
    · have hsim : e.2.sim.spawnedTrips = w1.sim.spawnedTrips := htr2
      rw [hsim]
      exact htr1
  · intro n m nbhds r ws hlk
    refine ⟨?_, ?_, ?_⟩ <;>
      simp only [OriginDestination.pick_driving_goal,
        OriginDestination.pick_biking_goal, OriginDestination.pick_walking_goal, hlk]

/-- Witness for C8 amended: the two-request scenario aborts at its second,
undefined request, with the first request's seeding applied and nothing
realized. -/
theorem undefined_neighborhood_aborts_witness :
    c8scn.seed_parked_cars = [⟨"a", wuc1⟩] ++ ⟨"zz", wuc1⟩ :: [] ∧
    (∀ s2 ∈ [(⟨"a", wuc1⟩ : SeedParkedCars)],
      (lookupNb c8map.neighborhoodsList s2.neighborhood).isSome) ∧
    lookupNb c8map.neighborhoodsList "zz" = none ∧
    (c8scn.instantiate c8map w0 =
        .error (.neighborhoodUndefined "zz",
          seedEffects c8map c8map.neighborhoodsList [⟨"a", wuc1⟩] w0) ∧
      (seedEffects c8map c8map.neighborhoodsList [⟨"a", wuc1⟩] w0).sim.spawnedTrips =
        w0.sim.spawnedTrips) :=
  ⟨rfl, by decide, by decide,
    undefined_neighborhood_aborts.1 c8scn c8map w0 [⟨"a", wuc1⟩] ⟨"zz", wuc1⟩ []
      rfl (by decide) (by decide)⟩

/-- The base stream after the stack-building loop depends only on the road
list and the incoming stream, never on the Sim's parking contents. -/
theorem buildOpenSpots_rng (m : Map) :
    ∀ (roads : List Nat) (sim1 sim2 : Sim) (r : RngState),
      (buildOpenSpots sim1 m roads r).2.2 = (buildOpenSpots sim2 m roads r).2.2
  | [], sim1, sim2, r => rfl
  | id :: rest, sim1, sim2, r => by
    rw [buildOpenSpots, buildOpenSpots]
    exact buildOpenSpots_rng m rest sim1 sim2 (fork_rng r).2

/-- The per-vehicle loop advances the base stream by exactly one fork per
request, whatever the spot search finds. -/
theorem seedVehicles_rng (m : Map) (nbr : List Nat) (b t l : Nat) :
    ∀ (n : Nat) (sim : Sim) (sm : SpotsMap) (r : RngState) (nc : Nat) (ws : List Warning),
      (seedVehicles m nbr b t l n sim sm r nc ws).2.2.1 = forkN n r
  | 0, sim, sm, r, nc, ws => rfl
  | n + 1, sim, sm, r, nc, ws => by
    rw [seedVehicles, forkN]
    cases hf : find_spot_near_building b sm nbr m with
    | mk o rest =>
      cases o with
      | some spot => exact seedVehicles_rng m nbr b t l n _ _ _ _ _
      | none => exact seedVehicles_rng m nbr b t l n _ _ _ _ _

/-- The base stream after the per-building loop depends only on the
distribution, the building list and the incoming stream: spot
availability, the stacks, the map, the neighborhood road set and the
counters never perturb it. -/
theorem seedBuildings_rng (wuc : WeightedUsizeChoice) :
    ∀ (bldgs : List Nat) (m1 m2 : Map) (nbr1 nbr2 : List Nat) (t1 t2 l1 l2 : Nat)
      (sim1 sim2 : Sim) (sm1 sm2 : SpotsMap) (r : RngState) (nc1 nc2 : Nat)
      (ws1 ws2 : List Warning),
      (seedBuildings m1 nbr1 wuc t1 l1 bldgs sim1 sm1 r nc1 ws1).2.2.1 =
        (seedBuildings m2 nbr2 wuc t2 l2 bldgs sim2 sm2 r nc2 ws2).2.2.1
  | [], _, _, _, _, _, _, _, _, _, _, _, _, _, _, _, _, _ => rfl
  | b :: rest, m1, m2, nbr1, nbr2, t1, t2, l1, l2, sim1, sim2, sm1, sm2, r, nc1, nc2,
      ws1, ws2 => by
    rw [seedBuildings, seedBuildings]
    have h1 := seedVehicles_rng m1 nbr1 b t1 l1 (wuc.sample r).1 sim1 sm1
      (wuc.sample r).2 nc1 ws1
    have h2 := seedVehicles_rng m2 nbr2 b t2 l2 (wuc.sample r).1 sim2 sm2
      (wuc.sample r).2 nc2 ws2
    calc (seedBuildings m1 nbr1 wuc t1 l1 rest _ _ _ _ _).2.2.1
        = (seedBuildings m1 nbr1 wuc t1 l1 rest _ _ (forkN (wuc.sample r).1 (wuc.sample r).2)
            _ _).2.2.1 := by rw [h1]
      _ = (seedBuildings m2 nbr2 wuc t2 l2 rest _ _ (forkN (wuc.sample r).1 (wuc.sample r).2)
            _ _).2.2.1 := seedBuildings_rng wuc rest m1 m2 nbr1 nbr2 t1 t2 l1 l2 _ _ _ _ _ _ _ _ _
      _ = (seedBuildings m2 nbr2 wuc t2 l2 rest _ _ _ _ _).2.2.1 := by rw [h2]

/-- C2 amended: only the parking allocator forks child streams, and only
for the spot-stack shuffles and the per-vehicle specs: there the base
stream advances by a fixed amount per request (one draw per fork, one per
count sample), so the parking contents of the Sim — which spots are free,
and whether any spot is found — never perturb the stream handed to later
decisions.  The spawn-time, building-choice and mode-roll draws of the
spawn phase, however, consume the shared base stream directly, so request
cardinality does perturb later requests (see the counterexample). -/
theorem seed_parked_cars_rng_decoupled (wuc : WeightedUsizeChoice)
    (bldgs roads : List Nat) (m : Map) (sim1 sim2 : Sim) (r : RngState)
    (ws1 ws2 : List Warning) :
    (seed_parked_cars ⟨sim1, r, ws1⟩ wuc bldgs roads m).rng =
      (seed_parked_cars ⟨sim2, r, ws2⟩ wuc bldgs roads m).rng := by
  rw [seed_parked_cars, seed_parked_cars]
  have hb := buildOpenSpots_rng m roads sim1 sim2 r
  simp only
  rw [hb]
  exact seedBuildings_rng wuc bldgs m m roads roads _ _ _ _ sim1 sim2 _ _ _ 0 0 ws1 ws2

/-- The spec-modelled shuffle is a permutation: it preserves length. -/
theorem shuffleWith_length {α : Type} (l : List α) (r : RngState) :
    (shuffleWith l r).length = l.length := by
  have hk : r.seed % (l.length + 1) ≤ l.length := by
    have := Nat.mod_lt r.seed (show 0 < l.length + 1 by omega)
    omega
  simp [shuffleWith]
  omega

/-- Counting total open spots over a cons stack map. -/
theorem totalOpenSpots_cons (kv : Nat × List ParkingSpot) (sm : SpotsMap) :
    totalOpenSpots (kv :: sm) = kv.2.length + totalOpenSpots sm := by
  simp [totalOpenSpots]

/-- The total spot count the setup loop reports equals the open spots held
in the stacks it builds. -/
theorem buildOpenSpots_total (sim : Sim) (m : Map) :
    ∀ (roads : List Nat) (r : RngState),
      (buildOpenSpots sim m roads r).2.1 = totalOpenSpots (buildOpenSpots sim m roads r).1
  | [], r => rfl
  | id :: rest, r => by
    rw [buildOpenSpots]
    simp only [totalOpenSpots_cons]
    rw [shuffleWith_length, buildOpenSpots_total sim m rest]

/-- Replacing one stack changes the total by the stack-length difference. -/
theorem totalOpenSpots_updateSpots :
    ∀ (sm : SpotsMap) (r : Nat) (l0 l : List ParkingSpot),
      lookupSpots sm r = some l0 →
      totalOpenSpots (updateSpots sm r l) + l0.length = totalOpenSpots sm + l.length
  | [], r, l0, l, h => by simp [lookupSpots] at h
  | kv :: rest, r, l0, l, h => by
    by_cases hk : kv.1 = r
    · rw [lookupSpots, if_pos hk] at h
      injection h with h0
      subst h0
      rw [updateSpots, if_pos hk, totalOpenSpots_cons, totalOpenSpots_cons]
      show l.length + totalOpenSpots rest + kv.2.length =
        kv.2.length + totalOpenSpots rest + l.length
      omega
    · rw [lookupSpots, if_neg hk] at h
      rw [updateSpots, if_neg hk, totalOpenSpots_cons, totalOpenSpots_cons]
      have := totalOpenSpots_updateSpots rest r l0 l h
      omega

/-- The BFS either fails leaving every stack untouched, or succeeds
removing exactly one spot from the stacks. -/
theorem findSpotBFS_effects (m : Map) (nbr : List Nat) :
    ∀ (fuel : Nat) (queue visited : List Nat) (sm : SpotsMap),
      ((findSpotBFS m nbr fuel queue visited sm).1 = none →
        (findSpotBFS m nbr fuel queue visited sm).2.1 = sm) ∧
      (∀ y, (findSpotBFS m nbr fuel queue visited sm).1 = some y →
        totalOpenSpots (findSpotBFS m nbr fuel queue visited sm).2.1 + 1 =
          totalOpenSpots sm)
  | 0, queue, visited, sm => by simp [findSpotBFS]
  | fuel + 1, [], visited, sm => by simp [findSpotBFS]
  | fuel + 1, r :: queue, visited, sm => by
    rw [findSpotBFS]
    cases hlk : lookupSpots sm r with
    | none =>
      exact findSpotBFS_effects m nbr fuel _ _ sm
    | some l0 =>
      rw [Option.getD_some]
      cases hpop : vecPop l0 with
      | none => exact findSpotBFS_effects m nbr fuel _ _ sm
      | some sr =>
        show ((some sr.1 = none → updateSpots sm r sr.2 = sm) ∧
          ∀ y, some sr.1 = some y →
            totalOpenSpots (updateSpots sm r sr.2) + 1 = totalOpenSpots sm)
        refine ⟨fun h => absurd h (by simp), fun y hy => ?_⟩
        have h1 := totalOpenSpots_updateSpots sm r l0 sr.2 hlk
        have h2 := vecPop_length l0 sr.1 sr.2 (by rw [hpop])
        omega

/-- The conservation invariant of the per-vehicle loop: each request either
places a vehicle or logs exactly one no-room warning; placements and open
spots trade one for one; each placement appends one parked car. -/
theorem seedVehicles_master (m : Map) (nbr : List Nat) (b t l : Nat) :
    ∀ (n : Nat) (sim : Sim) (sm : SpotsMap) (r : RngState) (nc : Nat) (ws : List Warning),
      (seedVehicles m nbr b t l n sim sm r nc ws).2.2.2.1 +
          countNoRoom (seedVehicles m nbr b t l n sim sm r nc ws).2.2.2.2 =
        nc + countNoRoom ws + n ∧
      (seedVehicles m nbr b t l n sim sm r nc ws).2.2.2.1 +
          totalOpenSpots (seedVehicles m nbr b t l n sim sm r nc ws).2.1 =
        nc + totalOpenSpots sm ∧
      (seedVehicles m nbr b t l n sim sm r nc ws).1.parkedCars.length + nc =
        sim.parkedCars.length + (seedVehicles m nbr b t l n sim sm r nc ws).2.2.2.1
  | 0, sim, sm, r, nc, ws => by exact ⟨rfl, rfl, rfl⟩
  | n + 1, sim, sm, r, nc, ws => by
    have heff := findSpotBFS_effects m nbr (nbr.length + 2)
      [m.building_to_road b] [m.building_to_road b] sm
    cases hf : find_spot_near_building b sm nbr m with
    | mk o rest =>
      cases rest with
      | mk sm2 warned =>
        have hf2 := hf
        rw [find_spot_near_building] at hf2
        cases o with
        | some spot =>
          have hred : seedVehicles m nbr b t l (n + 1) sim sm r nc ws =
              seedVehicles m nbr b t l n
                (sim.seed_parked_car (rand_car (fork_rng r).1).1 spot (some b)) sm2
                (fork_rng r).2 (nc + 1) ws := by
            rw [seedVehicles, hf]
          rw [hred]
          have ih := seedVehicles_master m nbr b t l n
            (sim.seed_parked_car (rand_car (fork_rng r).1).1 spot (some b)) sm2
            (fork_rng r).2 (nc + 1) ws
          have htot : totalOpenSpots sm2 + 1 = totalOpenSpots sm := by
            have h2 := heff.2 spot
            rw [hf2] at h2
            exact h2 rfl
          have hlen : (sim.seed_parked_car (rand_car (fork_rng r).1).1 spot
              (some b)).parkedCars.length = sim.parkedCars.length + 1 := by
            simp [Sim.seed_parked_car]
          omega
        | none =>
          have hsm : sm2 = sm := by
            have h1 := heff.1
            rw [hf2] at h1
            exact h1 rfl
          have hred : seedVehicles m nbr b t l (n + 1) sim sm r nc ws =
              seedVehicles m nbr b t l n sim sm2 (fork_rng r).2 nc
                (ws ++ (if warned then [Warning.giveUp b] else []) ++
                  [Warning.noRoom t l nc b]) := by
            rw [seedVehicles, hf]
          rw [hred, hsm]
          have ih := seedVehicles_master m nbr b t l n sim sm (fork_rng r).2 nc
            (ws ++ (if warned then [Warning.giveUp b] else []) ++
              [Warning.noRoom t l nc b])
          have hcnt : countNoRoom (ws ++ (if warned then [Warning.giveUp b] else []) ++
              [Warning.noRoom t l nc b]) = countNoRoom ws + 1 := by
            cases warned <;> simp [countNoRoom, List.countP_append]
          omega

/-- The conservation invariant of the per-building loop, with the total
request count given by the sampling replay. -/
theorem seedBuildings_master (m : Map) (nbr : List Nat) (wuc : WeightedUsizeChoice)
    (t l : Nat) :
    ∀ (bldgs : List Nat) (sim : Sim) (sm : SpotsMap) (r : RngState) (nc : Nat)
      (ws : List Warning),
      (seedBuildings m nbr wuc t l bldgs sim sm r nc ws).2.2.2.1 +
          countNoRoom (seedBuildings m nbr wuc t l bldgs sim sm r nc ws).2.2.2.2 =
        nc + countNoRoom ws + sampledTotal wuc bldgs r ∧
      (seedBuildings m nbr wuc t l bldgs sim sm r nc ws).2.2.2.1 +
          totalOpenSpots (seedBuildings m nbr wuc t l bldgs sim sm r nc ws).2.1 =
        nc + totalOpenSpots sm ∧
      (seedBuildings m nbr wuc t l bldgs sim sm r nc ws).1.parkedCars.length + nc =
        sim.parkedCars.length +
          (seedBuildings m nbr wuc t l bldgs sim sm r nc ws).2.2.2.1
  | [], sim, sm, r, nc, ws => by exact ⟨rfl, rfl, rfl⟩
  | b :: rest, sim, sm, r, nc, ws => by
    rw [seedBuildings, sampledTotal]
    have hsv := seedVehicles_master m nbr b t l (wuc.sample r).1 sim sm
      (wuc.sample r).2 nc ws
    have hrng := seedVehicles_rng m nbr b t l (wuc.sample r).1 sim sm
      (wuc.sample r).2 nc ws
    have ih := seedBuildings_master m nbr wuc t l rest
      (seedVehicles m nbr b t l (wuc.sample r).1 sim sm (wuc.sample r).2 nc ws).1
      (seedVehicles m nbr b t l (wuc.sample r).1 sim sm (wuc.sample r).2 nc ws).2.1
      (seedVehicles m nbr b t l (wuc.sample r).1 sim sm (wuc.sample r).2 nc ws).2.2.1
      (seedVehicles m nbr b t l (wuc.sample r).1 sim sm (wuc.sample r).2 nc ws).2.2.2.1
      (seedVehicles m nbr b t l (wuc.sample r).1 sim sm (wuc.sample r).2 nc ws).2.2.2.2
    rw [← hrng]
    omega

/-- C4: conservation of one SeedParkedCars pass.  Vehicles placed (the
growth of the parked-car list) plus no-room warnings logged equal the total
vehicle count the pass requested (the sum of the sampled per-building
counts, stated through the sampling replay sampledTotal, which consumes the
base stream exactly as the loop does); and the number of vehicles placed
never exceeds the number of spots initially free in the neighborhood road
set. -/
theorem seed_parked_cars_conservation (w : World) (wuc : WeightedUsizeChoice)
    (bldgs roads : List Nat) (m : Map) :
    (seed_parked_cars w wuc bldgs roads m).sim.parkedCars.length +
        countNoRoom (seed_parked_cars w wuc bldgs roads m).warnings =
      w.sim.parkedCars.length + countNoRoom w.warnings +
        sampledTotal wuc bldgs (buildOpenSpots w.sim m roads w.rng).2.2 ∧
    (seed_parked_cars w wuc bldgs roads m).sim.parkedCars.length ≤
      w.sim.parkedCars.length + (buildOpenSpots w.sim m roads w.rng).2.1 := by
  have hm := seedBuildings_master m roads wuc (buildOpenSpots w.sim m roads w.rng).2.1
    bldgs.length bldgs w.sim (buildOpenSpots w.sim m roads w.rng).1
    (buildOpenSpots w.sim m roads w.rng).2.2 0 w.warnings
  have htot := buildOpenSpots_total w.sim m roads w.rng
  have hcnt : countNoRoom ((seedBuildings m roads wuc
      (buildOpenSpots w.sim m roads w.rng).2.1 bldgs.length bldgs w.sim
      (buildOpenSpots w.sim m roads w.rng).1 (buildOpenSpots w.sim m roads w.rng).2.2 0
      w.warnings).2.2.2.2 ++
      [Warning.seededNote (seedBuildings m roads wuc
        (buildOpenSpots w.sim m roads w.rng).2.1 bldgs.length bldgs w.sim
        (buildOpenSpots w.sim m roads w.rng).1 (buildOpenSpots w.sim m roads w.rng).2.2 0
        w.warnings).2.2.2.1 (buildOpenSpots w.sim m roads w.rng).2.1]) =
      countNoRoom (seedBuildings m roads wuc
      (buildOpenSpots w.sim m roads w.rng).2.1 bldgs.length bldgs w.sim
      (buildOpenSpots w.sim m roads w.rng).1 (buildOpenSpots w.sim m roads w.rng).2.2 0
      w.warnings).2.2.2.2 := by
    simp [countNoRoom, List.countP_append]
  simp only [seed_parked_cars]
  constructor
  · rw [hcnt]
    omega
  · omega

/-- Referenced vehicle ids distribute over queue concatenation. -/
theorem upcVehicleIds_append (cars : List ParkedCar) (l1 l2 : List (Nat × TripSpec)) :
    upcVehicleIds cars (l1 ++ l2) = upcVehicleIds cars l1 ++ upcVehicleIds cars l2 := by
  simp [upcVehicleIds, upcSpots, List.filterMap_append]

/-- A trip that does not drive a parked car references no vehicle id. -/
theorem upcVehicleIds_single_none (cars : List ParkedCar) (t : Nat) (spec : TripSpec)
    (h : tripSpot spec = none) : upcVehicleIds cars [(t, spec)] = [] := by
  simp [upcVehicleIds, upcSpots, h]

/-- A drive-a-parked-car trip references exactly the resolved vehicle id. -/
theorem upcVehicleIds_single_upc (cars : List ParkedCar) (t : Nat) (spec : TripSpec)
    (spot : ParkingSpot) (id : Nat) (h : tripSpot spec = some spot)
    (hres : resolveVehicleId cars spot = some id) :
    upcVehicleIds cars [(t, spec)] = [id] := by
  simp [upcVehicleIds, upcSpots, h, hres]

/-- With pairwise-distinct spots, the spot of a parked car resolves back to
that car's vehicle id. -/
theorem resolve_self :
    ∀ (cars : List ParkedCar), (cars.map ParkedCar.spot).Nodup →
      ∀ p, p ∈ cars → resolveVehicleId cars p.spot = some p.vehicle.id
  | [], _, p, hp => by simp at hp
  | q :: rest, hnd, p, hp => by
    rw [List.map_cons, List.nodup_cons] at hnd
    by_cases hq : q.spot = p.spot
    · have hpq : p = q := by
        rcases List.mem_cons.mp hp with h1 | h2
        · exact h1
        · exact absurd (hq ▸ (List.mem_map_of_mem ParkedCar.spot h2)) hnd.1
      rw [resolveVehicleId, List.find?_cons_of_pos _ (by simp [hq]), hpq]
      rfl
    · have hp2 : p ∈ rest := by
        rcases List.mem_cons.mp hp with h1 | h2
        · rw [h1] at hq
          exact absurd rfl hq
        · exact h2
      rw [resolveVehicleId, List.find?_cons_of_neg _ (by simp [hq])]
      exact resolve_self rest hnd.2 p hp2

/-- The frame relation is reflexive up to the stream and the warnings. -/
theorem SpawnFrame_same (st : SpawnState) (r : RngState) (ws : List Warning) :
    SpawnFrame st ⟨st.sim, r, ws, st.reserved⟩ := by
  refine ⟨rfl, rfl, [], by simp, by simp [upcVehicleIds, upcSpots], by
    simp [upcVehicleIds, upcSpots], by simp [upcVehicleIds, upcSpots]⟩

/-- Scheduling a non-parked-car trip respects the frame relation. -/
theorem SpawnFrame_addPlain (st : SpawnState) (t : Nat) (spec : TripSpec)
    (r : RngState) (ws : List Warning) (h : tripSpot spec = none) :
    SpawnFrame st ⟨st.sim.schedule_trip t spec, r, ws, st.reserved⟩ := by
  refine ⟨rfl, rfl, [(t, spec)], by simp [Sim.schedule_trip], ?_, ?_, ?_⟩ <;>
    simp [upcVehicleIds_single_none st.sim.parkedCars t spec h]

/-- Reserving a fresh owned parked car and scheduling the trip that drives
it respects the frame relation. -/
theorem SpawnFrame_addUPC (st : SpawnState) (t : Nat) (s0 : SidewalkSpot)
    (g : DrivingGoal) (p : ParkedCar) (r : RngState) (ws : List Warning)
    (hspots : (st.sim.parkedCars.map ParkedCar.spot).Nodup)
    (hp : p ∈ st.sim.parkedCars) (hfresh : ¬ p.vehicle.id ∈ st.reserved) :
    SpawnFrame st ⟨st.sim.schedule_trip t (.UsingParkedCar s0 p.spot g), r, ws,
      p.vehicle.id :: st.reserved⟩ := by
  have hids : upcVehicleIds st.sim.parkedCars [(t, .UsingParkedCar s0 p.spot g)] =
      [p.vehicle.id] :=
    upcVehicleIds_single_upc st.sim.parkedCars t _ p.spot p.vehicle.id rfl
      (resolve_self st.sim.parkedCars hspots p hp)
  refine ⟨rfl, rfl, [(t, .UsingParkedCar s0 p.spot g)], by simp [Sim.schedule_trip],
    by simp [hids], by simp [hids, hfresh], by simp [hids]⟩

/-- The frame relation composes. -/
theorem SpawnFrame_trans (st st2 st3 : SpawnState) (h1 : SpawnFrame st st2)
    (h2 : SpawnFrame st2 st3) : SpawnFrame st st3 := by
  obtain ⟨hcars1, hsp1, new1, htr1, hres1, hfresh1, hnd1⟩ := h1
  obtain ⟨hcars2, hsp2, new2, htr2, hres2, hfresh2, hnd2⟩ := h2
  rw [hcars1] at hcars2 hres2 hfresh2 hnd2
  refine ⟨hcars2, by rw [hsp2, hsp1], new1 ++ new2,
    by rw [htr2, htr1, List.append_assoc], ?_, ?_, ?_⟩
  · rw [hres2, hres1, upcVehicleIds_append, List.reverse_append, List.append_assoc]
  · rw [upcVehicleIds_append]
    intro id hid
    rcases List.mem_append.mp hid with h1 | h2
    · exact hfresh1 id h1
    · have := hfresh2 id h2
      rw [hres1] at this
      intro hc
      exact this (List.mem_append.mpr (Or.inr hc))
  · rw [upcVehicleIds_append]
    refine List.Nodup.append hnd1 hnd2 ?_
    intro id hid1 hid2
    have := hfresh2 id hid2
    rw [hres1] at this
    exact this (List.mem_append.mpr (Or.inl (List.mem_reverse.mpr hid1)))

/-- One agent of a SpawnOverTime batch maintains the frame relation: it
schedules at most one trip, reserves a vehicle exactly when that trip
drives the origin building's unreserved parked car, and otherwise leaves
the reserved set alone. -/
theorem spawnAgent_frame (goalOd : OriginDestination) (startT stopT pb pt : Nat)
    (m : Map) (nbhds : List (String × FullNeighborhoodInfo))
    (info : FullNeighborhoodInfo) (st st2 : SpawnState)
    (hspots : (st.sim.parkedCars.map ParkedCar.spot).Nodup)
    (h : spawnAgent goalOd startT stopT pb pt m nbhds info st = .ok st2) :
    SpawnFrame st st2 := by
  simp only [spawnAgent] at h
  split at h
  · exact Except.noConfusion h
  · rename_i fb hc
    split at h
    · rename_i pc hfind
      have hp : pc ∈ st.sim.parkedCars := by
        have hmem0 := List.mem_of_find?_eq_some hfind
        simp only [Sim.get_parked_cars_by_owner] at hmem0
        exact List.mem_of_mem_filter hmem0
      have hfresh : ¬ pc.vehicle.id ∈ st.reserved := by
        have hb := List.find?_some hfind
        simpa using hb
      split at h
      · exact Except.noConfusion h
      · split at h
        · injection h with h2
          subst h2
          exact SpawnFrame_addUPC st _ _ _ pc _ _ hspots hp hfresh
        · injection h with h2
          subst h2
          exact SpawnFrame_same st _ _
    · split at h
      · split at h
        · exact Except.noConfusion h
        · split at h
          · split at h
            · injection h with h2
              subst h2
              exact SpawnFrame_same st _ _
            · injection h with h2
              subst h2
              exact SpawnFrame_addPlain st _ _ _ _ rfl
          · injection h with h2
            subst h2
            exact SpawnFrame_same st _ _
      · split at h
        · exact Except.noConfusion h
        · split at h
          · injection h with h2
            subst h2
            exact SpawnFrame_same st _ _
          · split at h
            · split at h
              · injection h with h2
                subst h2
                exact SpawnFrame_addPlain st _ _ _ _ rfl
              · injection h with h2
                subst h2
                exact SpawnFrame_addPlain st _ _ _ _ rfl
            · injection h with h2
              subst h2
              exact SpawnFrame_addPlain st _ _ _ _ rfl

/-- The per-agent loop maintains the frame relation. -/
theorem spawnAgents_frame (s : SpawnOverTime) (m : Map)
    (nbhds : List (String × FullNeighborhoodInfo)) (info : FullNeighborhoodInfo) :
    ∀ (n : Nat) (st st2 : SpawnState),
      (st.sim.parkedCars.map ParkedCar.spot).Nodup →
      spawnAgents s m nbhds info n st = .ok st2 → SpawnFrame st st2
  | 0, st, st2, _, h => by
    rw [spawnAgents] at h
    injection h with h2
    subst h2
    exact SpawnFrame_same st st.rng st.warnings
  | n + 1, st, st2, hspots, h => by
    rw [spawnAgents] at h
    cases ha : spawnAgent s.goal s.start_time s.stop_time s.percent_biking
        s.percent_use_transit m nbhds info st with
    | error e =>
      rw [ha] at h
      exact Except.noConfusion h
    | ok st1 =>
      rw [ha] at h
      have h1 := spawnAgent_frame s.goal s.start_time s.stop_time s.percent_biking
        s.percent_use_transit m nbhds info st st1 hspots ha
      have hspots1 : (st1.sim.parkedCars.map ParkedCar.spot).Nodup := by
        rw [h1.1]
        exact hspots
      exact SpawnFrame_trans st st1 st2 h1
        (spawnAgents_frame s m nbhds info n st1 st2 hspots1 (by exact h))

/-- One SpawnOverTime batch maintains the frame relation. -/
theorem spawnBatch_frame (s : SpawnOverTime) (m : Map)
    (nbhds : List (String × FullNeighborhoodInfo)) (st st2 : SpawnState)
    (hspots : (st.sim.parkedCars.map ParkedCar.spot).Nodup)
    (h : spawnBatch s m nbhds st = .ok st2) : SpawnFrame st st2 := by
  rw [spawnBatch] at h
  cases hlk : lookupNb nbhds s.start_from_neighborhood with
  | none =>
    rw [hlk] at h
    exact Except.noConfusion h
  | some info =>
    rw [hlk] at h
    exact spawnAgents_frame s m nbhds info s.num_agents st st2 hspots (by exact h)

/-- The whole SpawnOverTime phase maintains the frame relation. -/
theorem spawnPhase_frame (m : Map) (nbhds : List (String × FullNeighborhoodInfo)) :
    ∀ (batches : List SpawnOverTime) (st st2 : SpawnState),
      (st.sim.parkedCars.map ParkedCar.spot).Nodup →
      spawnPhase m nbhds batches st = .ok st2 → SpawnFrame st st2
  | [], st, st2, _, h => by
    rw [spawnPhase] at h
    injection h with h2
    subst h2
    exact SpawnFrame_same st st.rng st.warnings
  | s :: rest, st, st2, hspots, h => by
    rw [spawnPhase] at h
    cases hb : spawnBatch s m nbhds st with
    | error e =>
      rw [hb] at h
      exact Except.noConfusion h
    | ok st1 =>
      rw [hb] at h
      have h1 := spawnBatch_frame s m nbhds st st1 hspots hb
      have hspots1 : (st1.sim.parkedCars.map ParkedCar.spot).Nodup := by
        rw [h1.1]
        exact hspots
      exact SpawnFrame_trans st st1 st2 h1
        (spawnPhase_frame m nbhds rest st1 st2 hspots1 (by exact h))

/-- C5: no double reservation.  Within one SpawnOverTime batch (and given
well-formed parking state: pairwise-distinct spots; and a starting queue
whose drive-a-parked-car trips, if any, reference distinct vehicles already
in the reserved set), the vehicle ids referenced by the scheduled
drive-a-parked-car trips — each trip stores the reserved car's spot, which
resolves to that car's id — are pairwise distinct: each parked vehicle is
reserved by at most one scheduled trip of the batch. -/
theorem spawn_batch_no_double_reservation (s : SpawnOverTime) (m : Map)
    (nbhds : List (String × FullNeighborhoodInfo)) (st : SpawnState)
    (hspots : (st.sim.parkedCars.map ParkedCar.spot).Nodup)
    (hnd : (upcVehicleIds st.sim.parkedCars st.sim.scheduledTrips).Nodup)
    (hres : ∀ id ∈ upcVehicleIds st.sim.parkedCars st.sim.scheduledTrips,
      id ∈ st.reserved) :
    okImplies (spawnBatch s m nbhds st) (fun st2 =>
      (upcVehicleIds st.sim.parkedCars st2.sim.scheduledTrips).Nodup) := by
  intro st2 h
  obtain ⟨hcars, hsp, new, htr, hres2, hfresh, hndnew⟩ :=
    spawnBatch_frame s m nbhds st st2 hspots h
  rw [htr, upcVehicleIds_append]
  refine List.Nodup.append hnd hndnew ?_
  intro id h1 h2
  exact hfresh id h2 (hres id h1)

/-- Witness for C5: a two-agent batch over a Sim owning one parked car
reserves it exactly once. -/
theorem spawn_batch_no_double_reservation_witness :
    (c5st.sim.parkedCars.map ParkedCar.spot).Nodup ∧
    (upcVehicleIds c5st.sim.parkedCars c5st.sim.scheduledTrips).Nodup ∧
    (∀ id ∈ upcVehicleIds c5st.sim.parkedCars c5st.sim.scheduledTrips,
      id ∈ c5st.reserved) ∧
    okImplies (spawnBatch c5batch c5map c5map.neighborhoodsList c5st) (fun st2 =>
      (upcVehicleIds c5st.sim.parkedCars st2.sim.scheduledTrips).Nodup) :=
  ⟨by decide, by decide, by decide,
    spawn_batch_no_double_reservation c5batch c5map c5map.neighborhoodsList c5st
      (by decide) (by decide) (by decide)⟩

/-- C10: reservation atomicity.  First, when the origin building owns an
unreserved parked car but the driving goal fails to resolve, the agent is
skipped whole: the trip queue (indeed the entire Sim) and the reserved set
are unchanged.  Second, starting from an empty reserved set and a queue
with no drive-a-parked-car trips, after the spawn phase the reserved set
and the scheduled drive-a-parked-car trips correspond one to one: the
reserved list (reversed into insertion order) equals the list of vehicle
ids those trips reference, with no duplicates — every reserved id
corresponds to exactly one scheduled trip. -/
theorem reservation_atomicity :
    (∀ (goalOd : OriginDestination) (startT stopT pb pt : Nat) (m : Map)
      (nbhds : List (String × FullNeighborhoodInfo)) (info : FullNeighborhoodInfo)
      (st : SpawnState) (fb : Nat) (p : ParkedCar) (r3 : RngState) (ws3 : List Warning),
      (chooseFrom info.buildings (rand_time st.rng startT stopT).2).1 = some fb →
      (st.sim.get_parked_cars_by_owner fb).find?
        (fun q => decide (¬ q.vehicle.id ∈ st.reserved)) = some p →
      goalOd.pick_driving_goal m nbhds
        (chooseFrom info.buildings (rand_time st.rng startT stopT).2).2 st.warnings =
        .ok (none, r3, ws3) →
      spawnAgent goalOd startT stopT pb pt m nbhds info st =
        .ok ⟨st.sim, r3, ws3, st.reserved⟩) ∧
    (∀ (batches : List SpawnOverTime) (m : Map)
      (nbhds : List (String × FullNeighborhoodInfo)) (st : SpawnState),
      (st.sim.parkedCars.map ParkedCar.spot).Nodup →
      upcVehicleIds st.sim.parkedCars st.sim.scheduledTrips = [] →
      st.reserved = [] →
      okImplies (spawnPhase m nbhds batches st) (fun st2 =>
        st2.reserved.reverse = upcVehicleIds st.sim.parkedCars st2.sim.scheduledTrips ∧
        st2.reserved.Nodup)) := by
  constructor
  · intro goalOd startT stopT pb pt m nbhds info st fb p r3 ws3 h1 h2 h3
    simp only [spawnAgent, h1, h2, h3]
  · intro batches m nbhds st hspots hupc hres0 st2 h
    obtain ⟨hcars, hsp, new, htr, hres2, hfresh, hnd⟩ :=
      spawnPhase_frame m nbhds batches st st2 hspots h
    constructor
    · rw [hres2, hres0, htr, upcVehicleIds_append, hupc]
      simp
    · rw [hres2, hres0]
      simp [hnd]

/-- Witness for C10: the two-agent fixture, run as a whole phase from an
empty reserved set. -/
theorem reservation_atomicity_witness :
    (c5st.sim.parkedCars.map ParkedCar.spot).Nodup ∧
    upcVehicleIds c5st.sim.parkedCars c5st.sim.scheduledTrips = [] ∧
    c5st.reserved = [] ∧
    okImplies (spawnPhase c5map c5map.neighborhoodsList [c5batch] c5st) (fun st2 =>
      st2.reserved.reverse = upcVehicleIds c5st.sim.parkedCars st2.sim.scheduledTrips ∧
      st2.reserved.Nodup) :=
  ⟨by decide, by decide, rfl,
    reservation_atomicity.2 [c5batch] c5map c5map.neighborhoodsList c5st
      (by decide) (by decide) rfl⟩

end AB
